import Mathlib

/-!
Verification development for the Barangay Document Management System
(Flask + SQLAlchemy CRUD application).

This file gives a shallow embedding, in Lean 4, of the data model and of
the operations of the application that the checked properties concern:

* the SQLAlchemy models (`models.py`) become Lean structures;
* route handlers and helpers (`auth.py`, `routes.py`, `admin.py`,
  `helpers.py`, `app.py`, `pdf_utils.py`) become pure functions on an
  explicit database/session state;
* machine times and timestamps are modelled as `Int` instants; calendar
  dates (`datetime.date`) are modelled by an explicit `Date` structure,
  since the application performs calendar arithmetic on them;
* values generated non-deterministically by the runtime (fresh primary
  keys from database sequences, random OTP codes, timestamp strings) are
  passed to the embedded operations as explicit arguments;
* the werkzeug password hash is abstracted as an injective tagging of the
  plaintext, since no checked property concerns the hash function itself.
-/

namespace Barangay

/-- Audit-log metadata (a JSON dict in the source) modelled as key/value pairs. -/
abbrev Meta := List (String × String)

/-- Python's `str.upper()`, modelled character-wise over the string's
character list (the strings this application upper-cases are ASCII). -/
def strUpper (s : String) : String := String.mk (s.data.map Char.toUpper)

/-- Python's `str.lower()`, modelled character-wise. -/
def strLower (s : String) : String := String.mk (s.data.map Char.toLower)

/-- Python's `str.strip()`: drop leading and trailing whitespace. -/
def strTrim (s : String) : String :=
  String.mk (((s.data.dropWhile Char.isWhitespace).reverse.dropWhile
    Char.isWhitespace).reverse)

/-- A calendar date, as Python's `datetime.date`. -/
structure Date where
  y : Int
  m : Int
  d : Int
deriving Repr, DecidableEq

/-- Strict lexicographic order on dates, as Python's `<` on `datetime.date`. -/
def Date.ltb (a b : Date) : Bool :=
  a.y < b.y || (a.y == b.y && (a.m < b.m || (a.m == b.m && a.d < b.d)))

/-- Gregorian leap-year rule, as used by `calendar.monthrange`. -/
def isLeap (y : Int) : Bool :=
  (y % 4 == 0 && y % 100 != 0) || y % 400 == 0

/-- Number of days in a month, as `calendar.monthrange(year, month)[1]`. -/
def daysInMonth (y m : Int) : Int :=
  if m == 2 then (if isLeap y then 29 else 28)
  else if m == 4 || m == 6 || m == 9 || m == 11 then 30
  else 31

/-- `_add_months` from `app.py`: month arithmetic clamping the day to the
target month's length.  Python's floor division and nonnegative modulo are
`Int.fdiv` and `Int.fmod` here. -/
def add_months (v : Date) (months : Int) : Date :=
  let m0 := v.m - 1 + months
  let y := v.y + Int.fdiv m0 12
  let m := Int.fmod m0 12 + 1
  ⟨y, m, min v.d (daysInMonth y m)⟩

/-! ## Data model (`models.py`) -/

/-- `User` row. -/
structure UserR where
  id : Nat
  username : String
  email : String
  password_hash : String
  role : String
  created_at : Int
deriving Repr, DecidableEq

/-- `Resident` row (all columns of the `residents` table). -/
structure ResidentR where
  id : Nat
  barangay_id : Option String
  first_name : String
  middle_name : Option String
  last_name : String
  gender : String
  birth_date : Date
  marital_status : Option String
  address : String
  photo_path : Option String
  created_at : Int
  updated_at : Option Int
  created_by_id : Option Nat
  updated_by_id : Option Nat
  is_archived : Bool
  archived_at : Option Int
  archived_by_id : Option Nat
deriving Repr, DecidableEq

/-- `DocumentType` row. -/
structure DocumentTypeR where
  id : Nat
  name : String
  description : Option String
  template_path : Option String
  requires_photo : Bool
deriving Repr, DecidableEq

/-- `Document` row.  `resident_id` and `document_type_id` are `Nat`, not
`Option Nat`, mirroring the NOT NULL columns. -/
structure DocumentR where
  id : Nat
  resident_id : Nat
  document_type_id : Nat
  status : String
  details : Option String
  issue_date : Date
  file_path : Option String
  created_at : Int
  updated_at : Option Int
  approved_at : Option Int
  issued_at : Option Int
  is_archived : Bool
  archived_at : Option Int
  created_by_id : Option Nat
  updated_by_id : Option Nat
  approved_by_id : Option Nat
  issued_by_id : Option Nat
  archived_by_id : Option Nat
deriving Repr, DecidableEq

/-- `TransactionLog` row. -/
structure TransactionLogR where
  id : Nat
  user_id : Option Nat
  action : String
  entity_type : Option String
  entity_id : Option Nat
  ip_address : Option String
  user_agent : Option String
  meta : Option Meta
  timestamp : Int
deriving Repr, DecidableEq

/-- `PasswordReset` row. -/
structure PasswordResetR where
  id : Nat
  user_id : Nat
  otp_code : String
  expires_at : Int
  used : Bool
  created_at : Int
deriving Repr, DecidableEq

/-- `LoginAttempt` row. -/
structure LoginAttemptR where
  id : Nat
  username : Option String
  ip_address : Option String
  success : Bool
  created_at : Int
deriving Repr, DecidableEq

/-- `LoginMfaCode` row. -/
structure LoginMfaCodeR where
  id : Nat
  user_id : Nat
  otp_code : String
  expires_at : Int
  used : Bool
  created_at : Int
deriving Repr, DecidableEq

/-- The database state: one list per table.  New rows are prepended; the
fresh serial ids the database would assign are passed to each operation. -/
structure DB where
  users : List UserR
  residents : List ResidentR
  document_types : List DocumentTypeR
  documents : List DocumentR
  transaction_logs : List TransactionLogR
  password_resets : List PasswordResetR
  login_attempts : List LoginAttemptR
  login_mfa_codes : List LoginMfaCodeR
deriving Repr, DecidableEq

/-- The Flask session, restricted to the keys this application uses. -/
structure SessionS where
  authenticated : Option Nat
  permanent : Bool
  last_activity : Option Int
  mfa_user_id : Option Nat
  mfa_remember : Bool
  mfa_next : Option String
  force_password_change : Bool
deriving Repr, DecidableEq

/-- The configuration values (`config.py`) the embedded operations read,
with their defaults. -/
structure ConfigS where
  admin_mfa_required : Bool := true
  mfa_code_ttl_seconds : Int := 600
  login_rate_limit_max : Int := 5
  login_rate_limit_window_seconds : Int := 600
deriving Repr, DecidableEq

/-- The werkzeug password hash, abstracted as an injective tagging of the
plaintext (no checked property concerns the hash function itself). -/
def hashPassword (p : String) : String := "pbkdf2$" ++ p

/-- `User.check_password`. -/
def UserR.check_password (u : UserR) (p : String) : Bool :=
  u.password_hash == hashPassword p

/-! ## Helpers (`helpers.py`) -/

/-- `log_action` from `helpers.py`: appends a `TransactionLog` row for the
currently authenticated user; with no authenticated user nothing is logged.
`actor` is `current_user` (`none` when unauthenticated); `newLogId` is the
serial id the database assigns. -/
def log_action (db : DB) (actor : Option Nat) (newLogId : Nat) (now : Int)
    (ip ua : Option String) (action : String)
    (entity_type : Option String) (entity_id : Option Nat)
    (meta : Option Meta) : DB :=
  match actor with
  | none => db
  | some uid =>
      { db with transaction_logs :=
          ⟨newLogId, some uid, action, entity_type, entity_id, ip, ua, meta, now⟩
            :: db.transaction_logs }

/-! ## Authentication (`auth.py`) -/

/-- `_record_login_attempt`: inserts a `LoginAttempt` row; empty username
or ip is stored as NULL (`username or None`, `ip or None`). -/
def record_login_attempt (db : DB) (newId : Nat) (now : Int)
    (username : String) (ip : Option String) (success : Bool) : DB :=
  { db with login_attempts :=
      ⟨newId,
       (if username = "" then none else some username),
       (match ip with | some "" => none | x => x),
       success, now⟩ :: db.login_attempts }

/-- `_is_rate_limited`: counts failed attempts newer than
`now - window` for the request ip and for the submitted username; limited
when the larger count has reached `LOGIN_RATE_LIMIT_MAX`.  Disabled when
either configuration value is non-positive.  A missing/empty ip or empty
username contributes a count of 0 (Python truthiness of `ip` / `username`). -/
def is_rate_limited (cfg : ConfigS) (attempts : List LoginAttemptR)
    (now : Int) (username : String) (ip : Option String) : Bool :=
  let maxAttempts := cfg.login_rate_limit_max
  let windowSeconds := cfg.login_rate_limit_window_seconds
  if maxAttempts ≤ 0 || windowSeconds ≤ 0 then false
  else
    let cutoff := now - windowSeconds
    let base := attempts.filter (fun a => !a.success && cutoff ≤ a.created_at)
    let ipCount : Nat :=
      match ip with
      | none => 0
      | some i => if i = "" then 0 else (base.filter (fun a => a.ip_address == some i)).length
    let userCount : Nat :=
      if username = "" then 0
      else (base.filter (fun a => a.username == some username)).length
    decide (maxAttempts ≤ (max ipCount userCount : Int))

/-- `_start_mfa`: stores a fresh `LoginMfaCode` row expiring after
`MFA_CODE_TTL_SECONDS` and stashes the pending-MFA keys in the session.
`genCode` is the output of `secrets.token_hex(3)` (upper-cased here, as in
the source); `newMfaId` is the database-assigned id. -/
def start_mfa (cfg : ConfigS) (db : DB) (sess : SessionS) (newMfaId : Nat)
    (now : Int) (genCode : String) (u : UserR) (remember : Bool)
    (next_page : Option String) : DB × SessionS :=
  let mfa : LoginMfaCodeR :=
    ⟨newMfaId, u.id, strUpper genCode, now + cfg.mfa_code_ttl_seconds, false, now⟩
  let sess' :=
    { sess with
      mfa_user_id := some u.id
      mfa_remember := remember
      mfa_next :=
        match next_page with
        | some n => if n = "" then sess.mfa_next else some n
        | none => sess.mfa_next }
  ({ db with login_mfa_codes := mfa :: db.login_mfa_codes }, sess')

/-- `_finalize_login`: authenticates the session, records the action in
the transaction log, and flags the forced password change for the default
admin credentials. -/
def finalize_login (db : DB) (sess : SessionS) (newLogId : Nat) (now : Int)
    (ip ua : Option String) (u : UserR) (action : String) : DB × SessionS :=
  let sess1 := { sess with authenticated := some u.id, permanent := true,
                           last_activity := some now }
  let db1 := log_action db (some u.id) newLogId now ip ua action
      (some "user") (some u.id)
      (some [("username", u.username), ("role", u.role)])
  let sess2 :=
    if u.username = "admin" && u.check_password "admin" then
      { sess1 with force_password_change := true }
    else
      { sess1 with force_password_change := false }
  (db1, sess2)

/-- Outcome of the `login` route. -/
inductive LoginOutcome where
  | alreadyAuthenticated
  | rateLimited
  | invalidCredentials
  | adminEmailMissing
  | mfaStarted
  | loggedIn
deriving Repr, DecidableEq

/-- Result of the `login` route: outcome plus the new database and session. -/
structure LoginResult where
  outcome : LoginOutcome
  db : DB
  session : SessionS
deriving Repr, DecidableEq

/-- The `login` route (POST path with a validated form), from `auth.py`.
`attemptId`, `mfaId` and `logId` are the serial ids the database would
assign to the rows the branches may insert; `genCode` is the OTP that
`secrets.token_hex(3)` would produce. -/
def login (cfg : ConfigS) (db : DB) (sess : SessionS) (now : Int)
    (ip ua : Option String) (usernameInput pwd : String) (remember : Bool)
    (next_page : Option String) (genCode : String)
    (attemptId mfaId logId : Nat) : LoginResult :=
  if sess.authenticated.isSome then ⟨.alreadyAuthenticated, db, sess⟩
  else
    let username := strTrim usernameInput
    if is_rate_limited cfg db.login_attempts now username ip then
      ⟨.rateLimited, db, sess⟩
    else
      match db.users.find? (fun u => u.username == username) with
      | none =>
          ⟨.invalidCredentials,
           record_login_attempt db attemptId now username ip false, sess⟩
      | some u =>
          if !u.check_password pwd then
            ⟨.invalidCredentials,
             record_login_attempt db attemptId now username ip false, sess⟩
          else
            let db1 := record_login_attempt db attemptId now username ip true
            if u.role == "admin" && cfg.admin_mfa_required then
              if u.email = "" then ⟨.adminEmailMissing, db1, sess⟩
              else
                let (db2, sess2) :=
                  start_mfa cfg db1 sess mfaId now genCode u remember next_page
                ⟨.mfaStarted, db2, sess2⟩
            else
              let (db2, sess2) :=
                finalize_login db1 sess logId now ip ua u "Logged in"
              ⟨.loggedIn, db2, sess2⟩

/-- One step of the `ORDER BY expires_at DESC ... first()` selection:
keep whichever of the accumulator and the next row expires later. -/
def mfaPick (acc : Option LoginMfaCodeR) (r : LoginMfaCodeR) :
    Option LoginMfaCodeR :=
  match acc with
  | none => some r
  | some b => if b.expires_at < r.expires_at then some r else some b

/-- `ORDER BY expires_at DESC ... first()`: the row with the largest
`expires_at` among the candidates (the first such row on ties). -/
def latestByExpiry (rows : List LoginMfaCodeR) : Option LoginMfaCodeR :=
  rows.foldl mfaPick none

/-- Outcome of the `mfa_verify` route. -/
inductive MfaOutcome where
  | alreadyAuthenticated
  | noPendingMfa
  | userGone
  | invalidCode
  | loggedIn
deriving Repr, DecidableEq

/-- Result of the `mfa_verify` route. -/
structure MfaResult where
  outcome : MfaOutcome
  db : DB
  session : SessionS
deriving Repr, DecidableEq

/-- The `mfa_verify` route (POST path with a validated form), from
`auth.py`: looks up the newest-expiring unused `LoginMfaCode` row matching
the submitted code; if it has not expired, marks it used and completes the
login. -/
def mfa_verify (db : DB) (sess : SessionS) (now : Int) (ip ua : Option String)
    (submitted : String) (logId : Nat) : MfaResult :=
  if sess.authenticated.isSome then ⟨.alreadyAuthenticated, db, sess⟩
  else
    match sess.mfa_user_id with
    | none => ⟨.noPendingMfa, db, sess⟩
    | some uid =>
        match db.users.find? (fun u => u.id == uid) with
        | none =>
            ⟨.userGone, db,
             { sess with mfa_user_id := none, mfa_remember := false,
                         mfa_next := none }⟩
        | some u =>
            let code := strUpper (strTrim submitted)
            let candidates := db.login_mfa_codes.filter
              (fun r => r.user_id == u.id && r.otp_code == code && !r.used)
            match latestByExpiry candidates with
            | some pr =>
                if now < pr.expires_at then
                  let db1 :=
                    { db with login_mfa_codes :=
                        db.login_mfa_codes.map (fun r =>
                          if r.id == pr.id then { r with used := true } else r) }
                  let sess1 :=
                    { sess with mfa_remember := false, mfa_next := none,
                                mfa_user_id := none }
                  let (db2, sess2) :=
                    finalize_login db1 sess1 logId now ip ua u "Logged in (MFA)"
                  ⟨.loggedIn, db2, sess2⟩
                else ⟨.invalidCode, db, sess⟩
            | none => ⟨.invalidCode, db, sess⟩

/-! ## Residents (`routes.py`) -/

/-- The compiled behaviour of `BRGY_ID_PATTERN`.  The source reads
`re.compile(r"^BRGY-\\d{4}-\\d{5}$", re.IGNORECASE)`: inside the raw
string, `\\` is two characters, so the regex matches a literal backslash
followed by the literal letter `d` four (resp. five) times, not four
(resp. five) digits.  With `re.IGNORECASE` and the `$` anchor (which also
accepts one trailing newline) the accepted language is exactly the two
strings below, up to letter case. -/
def brgyIdPatternMatch (s : String) : Bool :=
  strUpper s == "BRGY-\\DDDD-\\DDDDD" || strUpper s == "BRGY-\\DDDD-\\DDDDD\n"

/-- The Barangay-ID format documented by the code itself (the error
message in `add_resident`, the comment in `models.py`, and the
auto-generation format): `BRGY-` then four digits, `-`, then five digits,
case-insensitively. -/
def brgyIdDocumentedMatch (s : String) : Bool :=
  let cs := (strUpper s).data
  cs.length == 15
    && cs.take 5 == ['B', 'R', 'G', 'Y', '-']
    && ((cs.drop 5).take 4).all Char.isDigit
    && (cs.drop 9).take 1 == ['-']
    && (cs.drop 10).all Char.isDigit

/-- Zero padding, as Python's format spec `{:05d}` (pads, never truncates). -/
def padZeros (width : Nat) (s : String) : String :=
  if width ≤ s.length then s
  else String.mk (List.replicate (width - s.length) '0') ++ s

/-- The auto-generated Barangay ID `f"BRGY-{year}-{resident.id:05d}"` from
`add_resident`. -/
def autoBarangayId (year : Int) (residentId : Nat) : String :=
  "BRGY-" ++ toString year ++ "-" ++ padZeros 5 (toString residentId)

/-- Result of the Barangay-ID handling inside `add_resident`. -/
inductive BrgyIdResult where
  | rejectedFormat
  | rejectedInUse
  | accepted (stored : String)
deriving Repr, DecidableEq

/-- The Barangay-ID part of `add_resident` (routes.py lines 558-591):
an absent/blank input leads to the auto-generated id
`BRGY-<year>-<id zero-padded to 5>`; a non-blank input is upper-cased,
validated against `BRGY_ID_PATTERN`, and checked for uniqueness. -/
def add_resident_barangay_id (db : DB) (raw : Option String)
    (newResidentId : Nat) (year : Int) : BrgyIdResult :=
  let b0 : Option String :=
    match raw with
    | none => none
    | some s => if s = "" then none else some (strTrim s)
  match b0 with
  | none => .accepted (autoBarangayId year newResidentId)
  | some b =>
      if b = "" then .accepted (autoBarangayId year newResidentId)
      else
        let normalized := strUpper (strTrim b)
        if !brgyIdPatternMatch normalized then .rejectedFormat
        else if db.residents.any (fun r =>
            match r.barangay_id with
            | some x => strUpper x == normalized
            | none => false) then .rejectedInUse
        else .accepted normalized

/-- `delete_resident`: soft delete.  Archives the resident (recording who
and when) and archives every non-archived document of that resident; a
missing id aborts with 404 and changes nothing. -/
def delete_resident (db : DB) (actor : Nat) (now : Int) (ip ua : Option String)
    (resident_id : Nat) (logId : Nat) : DB :=
  match db.residents.find? (fun r => r.id == resident_id) with
  | none => db
  | some _ =>
      let db1 :=
        { db with
          residents := db.residents.map (fun r =>
            if r.id == resident_id then
              { r with is_archived := true, archived_at := some now,
                       archived_by_id := some actor, updated_at := some now,
                       updated_by_id := some actor }
            else r)
          documents := db.documents.map (fun d =>
            if d.resident_id == resident_id && !d.is_archived then
              { d with is_archived := true, archived_at := some now,
                       archived_by_id := some actor, updated_at := some now,
                       updated_by_id := some actor }
            else d) }
      log_action db1 (some actor) logId now ip ua
        ("Archived resident #" ++ toString resident_id)
        (some "resident") (some resident_id) none

/-- `restore_resident`: clears the archive flag and the archive metadata
and records who performed the restore (`updated_at` / `updated_by_id`);
documents are not touched. -/
def restore_resident (db : DB) (actor : Nat) (now : Int) (ip ua : Option String)
    (resident_id : Nat) (logId : Nat) : DB :=
  match db.residents.find? (fun r => r.id == resident_id) with
  | none => db
  | some _ =>
      let db1 :=
        { db with residents := db.residents.map (fun r =>
            if r.id == resident_id then
              { r with is_archived := false, archived_at := none,
                       archived_by_id := none, updated_at := some now,
                       updated_by_id := some actor }
            else r) }
      log_action db1 (some actor) logId now ip ua
        ("Restored resident #" ++ toString resident_id)
        (some "resident") (some resident_id) none

/-! ## Documents (`routes.py`, `admin.py`) -/

/-- `issue_document` (POST path): creates a draft `Document` from an
existing resident and an existing document type.  The resident and the
type come from `db.get_or_404` / the validated select-field choices; an
archived resident, a future issue date, or an issue date before the
resident's birth date aborts without a change.  `photoPath` is the path
`save_captured_image` returns for a captured resident photo (`none` when
no photo was captured or the data url was invalid); when present it is
stored on the resident before the draft is created. -/
def issue_document (db : DB) (actor : Nat) (now : Int) (today : Date)
    (ip ua : Option String) (rid tid : Nat) (details : Option String)
    (issueDate : Option Date) (photoPath : Option String)
    (newDocId logId : Nat) : DB :=
  match db.residents.find? (fun r => r.id == rid),
        db.document_types.find? (fun t => t.id == tid) with
  | some r, some t =>
      if r.is_archived then db
      else if (match issueDate with
               | some d => today.ltb d
               | none => false) then db
      else if (match issueDate with
               | some d => d.ltb r.birth_date
               | none => false) then db
      else
        let db0 :=
          match photoPath with
          | some p =>
              { db with residents := db.residents.map (fun x : ResidentR =>
                  if x.id == r.id then { x with photo_path := some p } else x) }
          | none => db
        let issued := issueDate.getD today
        let doc : DocumentR :=
          ⟨newDocId, r.id, t.id, "draft", details, issued, none, now,
           none, none, none, false, none, some actor, none, none, none, none⟩
        log_action { db0 with documents := doc :: db0.documents }
          (some actor) logId now ip ua
          ("Created document draft #" ++ toString newDocId)
          (some "document") (some newDocId) none
  | _, _ => db

/-- `edit_document` (POST path): updates a non-archived, non-issued
document in place, taking the resident and type from the validated form
choices (which are existing rows); a draft demotion clears the approval
fields. -/
def edit_document (db : DB) (actor : Nat) (now : Int) (today : Date)
    (ip ua : Option String) (document_id rid tid : Nat)
    (details : Option String) (issueDate : Option Date) (logId : Nat) : DB :=
  match db.documents.find? (fun d => d.id == document_id) with
  | none => db
  | some d0 =>
      if d0.is_archived then db
      else if d0.status == "issued" then db
      else
        match db.residents.find? (fun r => r.id == rid),
              db.document_types.find? (fun t => t.id == tid) with
        | some r, some _ =>
            if r.is_archived then db
            else
              let newDate := issueDate.getD d0.issue_date
              if (match issueDate with
                  | some d => today.ltb d || d.ltb r.birth_date
                  | none => false) then db
              else
                let db1 :=
                  { db with documents := db.documents.map (fun d =>
                      if d.id == document_id then
                        let d1 :=
                          { d with resident_id := rid, document_type_id := tid,
                                   details := details, issue_date := newDate,
                                   updated_at := some now,
                                   updated_by_id := some actor }
                        if d1.status == "approved" || d1.status == "pending" then
                          { d1 with status := "draft", approved_at := none,
                                    approved_by_id := none }
                        else d1
                      else d) }
                log_action db1 (some actor) logId now ip ua
                  ("Updated document #" ++ toString document_id)
                  (some "document") (some document_id) none
        | _, _ => db

/-- `revise_document`: creates a fresh draft copying the resident, type
and details of an existing issued, non-archived document. -/
def revise_document (db : DB) (actor : Nat) (now : Int) (today : Date)
    (ip ua : Option String) (document_id newDocId logId : Nat) : DB :=
  match db.documents.find? (fun d => d.id == document_id) with
  | none => db
  | some d =>
      if d.is_archived then db
      else if d.status != "issued" then db
      else
        let doc : DocumentR :=
          ⟨newDocId, d.resident_id, d.document_type_id, "draft", d.details,
           today, none, now, none, none, none, false, none, some actor,
           none, none, none, none⟩
        log_action { db with documents := doc :: db.documents }
          (some actor) logId now ip ua
          ("Created revision draft #" ++ toString newDocId)
          (some "document") (some newDocId) none

/-- `delete_document`: soft delete (archives the document). -/
def delete_document (db : DB) (actor : Nat) (now : Int) (ip ua : Option String)
    (document_id : Nat) (logId : Nat) : DB :=
  match db.documents.find? (fun d => d.id == document_id) with
  | none => db
  | some _ =>
      let db1 :=
        { db with documents := db.documents.map (fun d =>
            if d.id == document_id then
              { d with is_archived := true, archived_at := some now,
                       archived_by_id := some actor, updated_at := some now,
                       updated_by_id := some actor }
            else d) }
      log_action db1 (some actor) logId now ip ua
        ("Archived document #" ++ toString document_id)
        (some "document") (some document_id) none

/-- `restore_document`: clears the archive flag and metadata. -/
def restore_document (db : DB) (actor : Nat) (now : Int) (ip ua : Option String)
    (document_id : Nat) (logId : Nat) : DB :=
  match db.documents.find? (fun d => d.id == document_id) with
  | none => db
  | some _ =>
      let db1 :=
        { db with documents := db.documents.map (fun d =>
            if d.id == document_id then
              { d with is_archived := false, archived_at := none,
                       archived_by_id := none, updated_at := some now,
                       updated_by_id := some actor }
            else d) }
      log_action db1 (some actor) logId now ip ua
        ("Restored document #" ++ toString document_id)
        (some "document") (some document_id) none

/-- `delete_document_type` (`admin.py`): refuses to delete a type any
document still references; otherwise removes the row. -/
def delete_document_type (db : DB) (actor : Nat) (now : Int)
    (ip ua : Option String) (type_id : Nat) (logId : Nat) : DB :=
  match db.document_types.find? (fun t => t.id == type_id) with
  | none => db
  | some dt =>
      if db.documents.any (fun d => d.document_type_id == dt.id) then db
      else
        log_action
          { db with document_types :=
              db.document_types.filter (fun t => !(t.id == type_id)) }
          (some actor) logId now ip ua "Deleted document type"
          (some "document_type") (some type_id) (some [("name", dt.name)])

/-- The `user_id` detachment `delete_user` applies to a transaction-log
row: `TransactionLog.query.filter_by(user_id=...).update({"user_id": None})`. -/
def detachLog (uid : Nat) (l : TransactionLogR) : TransactionLogR :=
  if l.user_id == some uid then { l with user_id := none } else l

/-- `delete_user` (`admin.py`): refuses self-deletion; otherwise detaches
the user's transaction-log rows (sets their `user_id` to NULL), deletes
the user's password resets and MFA codes, deletes the user, and records
the deletion. -/
def delete_user (db : DB) (actor : Nat) (now : Int) (ip ua : Option String)
    (user_id : Nat) (logId : Nat) : DB :=
  if user_id == actor then db
  else
    match db.users.find? (fun u => u.id == user_id) with
    | none => db
    | some u =>
        let db1 :=
          { db with
            transaction_logs := db.transaction_logs.map (detachLog u.id)
            password_resets :=
              db.password_resets.filter (fun p => !(p.user_id == u.id))
            login_mfa_codes :=
              db.login_mfa_codes.filter (fun m => !(m.user_id == u.id))
            users := db.users.filter (fun x => !(x.id == u.id)) }
        log_action db1 (some actor) logId now ip ua "Deleted user"
          (some "user") none (some [("username", u.username)])

/-- `finalize_document_issue` (POST): promotes a draft-like, non-archived
document to `issued`, then generates its PDF and stores the relative path.
The PDF path computation is embedded separately (`generate_pdf_rel_path`);
`pdfRelPath` is the value that call returns. -/
def finalize_document_issue (db : DB) (actor : Nat) (now : Int) (today : Date)
    (ip ua : Option String) (document_id : Nat) (pdfRelPath : String)
    (logId : Nat) : DB :=
  match db.documents.find? (fun d => d.id == document_id) with
  | none => db
  | some d =>
      if d.is_archived then db
      else if !(d.status == "draft" || d.status == "pending" || d.status == "approved") then db
      else
        let resident := db.residents.find? (fun r => r.id == d.resident_id)
        let dtype := db.document_types.find? (fun t => t.id == d.document_type_id)
        if (match resident with | some r => r.is_archived | none => false) then db
        else if (match dtype, resident with
                 | some t, some r =>
                     t.requires_photo
                       && (match r.photo_path with
                           | none => true
                           | some p => p = "")
                 | _, _ => false) then db
        else if today.ltb d.issue_date then db
        else if (match resident with
                 | some r => d.issue_date.ltb r.birth_date
                 | none => false) then db
        else
          let db1 :=
            { db with documents := db.documents.map (fun x =>
                if x.id == document_id then
                  let x1 :=
                    if x.status == "pending" || x.status == "approved" then
                      { x with approved_at := none, approved_by_id := none }
                    else x
                  { x1 with status := "issued", issued_at := some now,
                            issued_by_id := some actor, updated_at := some now,
                            updated_by_id := some actor,
                            file_path := some pdfRelPath }
                else x) }
          log_action db1 (some actor) logId now ip ua
            ("Issued document #" ++ toString document_id)
            (some "document") (some document_id) none

/-- `_process_expired_documents` (`app.py`): archives issued documents
past their validity window and hard-deletes previously archived issued
documents past the grace period, appending summary transaction-log rows.
`cutoffDate` is `today - timedelta(days=grace_days)`; the day-level
subtraction is supplied by the caller. -/
def process_expired_documents (db : DB) (months graceDays : Int) (now : Int)
    (today cutoffDate : Date) (logId1 logId2 : Nat) : DB :=
  if months ≤ 0 then db
  else
    let expired := fun (d : DocumentR) => (add_months d.issue_date months).ltb today
    let toArchive := db.documents.filter (fun d =>
      d.status == "issued" && !d.is_archived && expired d)
    let toDelete := db.documents.filter (fun d =>
      d.status == "issued" && d.is_archived
        && (add_months d.issue_date months).ltb cutoffDate)
    let deletedIds := toDelete.map (fun d => d.id)
    let db1 :=
      { db with documents :=
          (db.documents.map (fun d =>
            if d.status == "issued" && !d.is_archived && expired d then
              { d with is_archived := true, archived_at := some now,
                       archived_by_id := none, updated_at := some now }
            else d)).filter (fun d => !(deletedIds.contains d.id)) }
    let db2 :=
      if toArchive.length ≠ 0 then
        { db1 with transaction_logs :=
            ⟨logId1, none, "Auto-archived expired documents", some "document",
             none, none, none,
             some [("count", toString toArchive.length),
                   ("months", toString months)],
             now⟩ :: db1.transaction_logs }
      else db1
    if toDelete.length ≠ 0 then
      { db2 with transaction_logs :=
          ⟨logId2, none, "Auto-deleted expired documents", some "document",
           none, none, none,
           some [("count", toString toDelete.length),
                 ("grace_days", toString graceDays)],
           now⟩ :: db2.transaction_logs }
    else db2

/-! ## PDF file paths (`pdf_utils.py`, `routes.py`) -/

/-- Strip leading and trailing underscores, as Python's `str.strip("_")`. -/
def stripUnderscores (s : String) : String :=
  String.mk (((s.toList.dropWhile (fun c => c = '_')).reverse.dropWhile
    (fun c => c = '_')).reverse)

/-- `_safe_filename`: keep alphanumerics, `-` and `_`; replace everything
else with `_`; strip underscores from both ends.  (`str.isalnum` is
modelled on the ASCII fragment the seeded document-type names use.) -/
def safe_filename (text : String) : String :=
  stripUnderscores (String.mk (text.toList.map (fun ch =>
    if ch.isAlphanum || ch = '-' || ch = '_' then ch else '_')))

/-- `os.path.join` for the slash-free relative components this code
produces. -/
def joinPath (a b : String) : String := a ++ "/" ++ b

/-- The subdirectory name used by `generate_document_pdf`:
`_safe_filename(doc_type_name.lower()) or "document"`; a document with no
type uses the name `"document"`. -/
def pdfFolder (docTypeName : Option String) : String :=
  let nm := docTypeName.getD "document"
  let f := safe_filename (strLower nm)
  if f = "" then "document" else f

/-- The generated file name
`f"{folder}_resident_{doc.resident_id}_{ts}.pdf"`. -/
def pdfFileName (folder : String) (residentId : Nat) (ts : String) : String :=
  folder ++ "_resident_" ++ toString residentId ++ "_" ++ ts ++ ".pdf"

/-- The default `UPLOAD_FOLDER`: `<app_root>/static/uploads`. -/
def defaultUploadFolder (rootPath : String) : String :=
  joinPath (joinPath rootPath "static") "uploads"

/-- The absolute path `generate_document_pdf` writes the PDF to:
`<upload_folder>/documents/<folder>/<filename>`. -/
def generate_pdf_abs_path (uploadFolder : String) (docTypeName : Option String)
    (residentId : Nat) (ts : String) : String :=
  let folder := pdfFolder docTypeName
  joinPath (joinPath (joinPath uploadFolder "documents") folder)
    (pdfFileName folder residentId ts)

/-- The relative path `generate_document_pdf` returns:
`uploads/documents/<folder>/<filename>` (relative to `/static`). -/
def generate_pdf_rel_path (docTypeName : Option String) (residentId : Nat)
    (ts : String) : String :=
  let folder := pdfFolder docTypeName
  joinPath (joinPath (joinPath "uploads" "documents") folder)
    (pdfFileName folder residentId ts)

/-- How `download_document_pdf` resolves a stored `file_path`:
`os.path.join(current_app.root_path, "static", doc.file_path)`. -/
def download_resolve_path (rootPath filePath : String) : String :=
  joinPath (joinPath rootPath "static") filePath

/-- Outcome of the `download_document_pdf` route. -/
inductive DownloadOutcome where
  | archivedBlocked
  | notIssuedBlocked
  | missingOnDisk
  | served
deriving Repr, DecidableEq

/-- Result of the `download_document_pdf` route: the outcome, the absolute
path served (when any), the `file_path` now stored on the document, and
the disk contents after any on-demand generation. -/
structure DownloadResult where
  outcome : DownloadOutcome
  servedPath : Option String
  file_path : Option String
  disk : List String
deriving Repr, DecidableEq

/-- The `download_document_pdf` route: refuses archived or non-issued
documents; generates the PDF on demand when `file_path` is falsy, serves
the file at the stored path resolved against `/static`, and regenerates
once when that file is missing on disk.  `disk` is the set of absolute
paths present on disk; generation writes `generate_pdf_abs_path` and
stores `generate_pdf_rel_path`. -/
def download_document_pdf (rootPath uploadFolder : String)
    (docTypeName : Option String) (doc : DocumentR) (disk : List String)
    (ts : String) : DownloadResult :=
  if doc.is_archived then ⟨.archivedBlocked, none, doc.file_path, disk⟩
  else if doc.status != "issued" then ⟨.notIssuedBlocked, none, doc.file_path, disk⟩
  else
    let needsGen :=
      match doc.file_path with
      | none => true
      | some p => p = ""
    let fp0 :=
      if needsGen then generate_pdf_rel_path docTypeName doc.resident_id ts
      else doc.file_path.getD ""
    let disk1 :=
      if needsGen then
        generate_pdf_abs_path uploadFolder docTypeName doc.resident_id ts :: disk
      else disk
    let abs0 := download_resolve_path rootPath fp0
    if disk1.contains abs0 then ⟨.served, some abs0, some fp0, disk1⟩
    else
      let fp1 := generate_pdf_rel_path docTypeName doc.resident_id ts
      let disk2 :=
        generate_pdf_abs_path uploadFolder docTypeName doc.resident_id ts :: disk1
      let abs1 := download_resolve_path rootPath fp1
      if disk2.contains abs1 then ⟨.served, some abs1, some fp1, disk2⟩
      else ⟨.missingOnDisk, none, some fp1, disk2⟩

/-! ## Schema healing at startup (`app.py`, `create_app`) -/

/-- `ALTER TABLE .. ADD COLUMN IF NOT EXISTS`: add the column when absent. -/
def addCol (cols : List String) (c : String) : List String :=
  if c ∈ cols then cols else c :: cols

/-- A run of `ADD COLUMN IF NOT EXISTS` statements (the `not in cols`
guards in the source only skip statements whose effect is already a
no-op). -/
def healCols (cols : List String) (wanted : List String) : List String :=
  wanted.foldl addCol cols

/-- Schema of the `residents` table tracked by the healing logic. -/
structure ResidentsSchema where
  tbl : Bool
  cols : List String
  ixLastName : Bool
  ixBarangayId : Bool
deriving Repr, DecidableEq

/-- Schema of a table for which the healing logic tracks only existence
and columns. -/
structure TableSchema where
  tbl : Bool
  cols : List String
deriving Repr, DecidableEq

/-- Schema of the `transaction_logs` table. -/
structure TlSchema where
  tbl : Bool
  cols : List String
  userIdNullable : Bool
  fkUserSetNull : Bool
deriving Repr, DecidableEq

/-- Schema of the `documents` table. -/
structure DocumentsSchema where
  tbl : Bool
  cols : List String
  docTypeHasDefault : Bool
  docTypeIdNotNull : Bool
  fkDocTypeId : Bool
  ixIssueDate : Bool
  ixResidentId : Bool
  ixDocTypeId : Bool
deriving Repr, DecidableEq

/-- The database schema as seen by the startup healing logic. -/
structure Schema where
  residents : ResidentsSchema
  document_types : TableSchema
  users : TableSchema
  transaction_logs : TlSchema
  login_attempts : TableSchema
  login_mfa_codes : TableSchema
  documents : DocumentsSchema
deriving Repr, DecidableEq

/-- Columns added to `residents` when the table exists. -/
def residentsWantedCols : List String :=
  ["middle_name", "marital_status", "created_by_id", "updated_by_id",
   "updated_at", "is_archived", "archived_at", "archived_by_id"]

/-- The `residents` part of the healing logic: add missing columns and
create the two indexes; a missing table is left alone. -/
def healResidents (s : ResidentsSchema) : ResidentsSchema :=
  if s.tbl then
    { tbl := true, cols := healCols s.cols residentsWantedCols,
      ixLastName := true, ixBarangayId := true }
  else s

/-- Columns of a freshly created `document_types` table. -/
def documentTypesCreateCols : List String :=
  ["id", "name", "description", "template_path", "requires_photo"]

/-- The `document_types` part: create the table when missing, otherwise
add the missing columns. -/
def healDocumentTypes (s : TableSchema) : TableSchema :=
  if s.tbl then
    { tbl := true,
      cols := healCols s.cols ["description", "template_path", "requires_photo"] }
  else { tbl := true, cols := documentTypesCreateCols }

/-- Columns of a freshly created `users` table. -/
def usersCreateCols : List String :=
  ["id", "username", "email", "password_hash", "role", "created_at"]

/-- The `users` part: create the table when missing; later, add the
columns the current models need. -/
def healUsers (s : TableSchema) : TableSchema :=
  let s1 := if s.tbl then s else { tbl := true, cols := usersCreateCols }
  { tbl := true, cols := healCols s1.cols ["email", "role", "password_hash"] }

/-- Columns of a freshly created `transaction_logs` table. -/
def tlCreateCols : List String :=
  ["id", "user_id", "action", "entity_type", "entity_id", "ip_address",
   "user_agent", "meta", "timestamp"]

/-- The `transaction_logs` part: create the table when missing, add the
missing columns, and when a `user_id` column is present make it nullable
and replace its foreign key with `ON DELETE SET NULL`. -/
def healTransactionLogs (s : TlSchema) : TlSchema :=
  let s1 :=
    if s.tbl then s
    else { tbl := true, cols := tlCreateCols, userIdNullable := true,
           fkUserSetNull := false }
  let cols' := healCols s1.cols
    ["entity_type", "entity_id", "ip_address", "user_agent", "meta"]
  if "user_id" ∈ s1.cols then
    { tbl := true, cols := cols', userIdNullable := true, fkUserSetNull := true }
  else
    { tbl := true, cols := cols', userIdNullable := s1.userIdNullable,
      fkUserSetNull := s1.fkUserSetNull }

/-- Columns of a freshly created `login_attempts` table. -/
def loginAttemptsCreateCols : List String :=
  ["id", "username", "ip_address", "success", "created_at"]

/-- The `login_attempts` part: create the table when missing. -/
def healLoginAttempts (s : TableSchema) : TableSchema :=
  if s.tbl then s else { tbl := true, cols := loginAttemptsCreateCols }

/-- Columns of a freshly created `login_mfa_codes` table. -/
def loginMfaCreateCols : List String :=
  ["id", "user_id", "otp_code", "expires_at", "used", "created_at"]

/-- The `login_mfa_codes` part: create the table when missing. -/
def healLoginMfa (s : TableSchema) : TableSchema :=
  if s.tbl then s else { tbl := true, cols := loginMfaCreateCols }

/-- Columns added to `documents` when the table exists. -/
def documentsWantedCols : List String :=
  ["document_type_id", "status", "created_at", "updated_at", "approved_at",
   "issued_at", "is_archived", "archived_at", "created_by_id",
   "updated_by_id", "approved_by_id", "issued_by_id", "archived_by_id"]

/-- The `documents` part: add the missing columns; when the legacy
`doc_type` column is present give it a default; enforce NOT NULL on
`document_type_id`, ensure its foreign key, and create the three indexes.
The accompanying `UPDATE`/`INSERT` backfill statements touch rows, not the
schema, and so do not appear in the schema model.  A missing table is left
alone. -/
def healDocuments (s : DocumentsSchema) : DocumentsSchema :=
  if s.tbl then
    { tbl := true
      cols := healCols s.cols documentsWantedCols
      docTypeHasDefault :=
        if "doc_type" ∈ s.cols then true else s.docTypeHasDefault
      docTypeIdNotNull := true
      fkDocTypeId := true
      ixIssueDate := true
      ixResidentId := true
      ixDocTypeId := true }
  else s

/-- The whole schema-healing pass run by `create_app` on PostgreSQL
databases (successful-execution path of every `_exec_try` statement). -/
def healSchema (s : Schema) : Schema :=
  { residents := healResidents s.residents
    document_types := healDocumentTypes s.document_types
    users := healUsers s.users
    transaction_logs := healTransactionLogs s.transaction_logs
    login_attempts := healLoginAttempts s.login_attempts
    login_mfa_codes := healLoginMfa s.login_mfa_codes
    documents := healDocuments s.documents }

/-- The healing pass is purely additive on a schema: existing tables
survive, and every existing column of an existing table survives. -/
def schemaAdditive (s s' : Schema) : Prop :=
  (s.residents.tbl = true → s'.residents.tbl = true
    ∧ ∀ c ∈ s.residents.cols, c ∈ s'.residents.cols)
  ∧ (s.document_types.tbl = true → s'.document_types.tbl = true
    ∧ ∀ c ∈ s.document_types.cols, c ∈ s'.document_types.cols)
  ∧ (s.users.tbl = true → s'.users.tbl = true
    ∧ ∀ c ∈ s.users.cols, c ∈ s'.users.cols)
  ∧ (s.transaction_logs.tbl = true → s'.transaction_logs.tbl = true
    ∧ ∀ c ∈ s.transaction_logs.cols, c ∈ s'.transaction_logs.cols)
  ∧ (s.login_attempts.tbl = true → s'.login_attempts.tbl = true
    ∧ ∀ c ∈ s.login_attempts.cols, c ∈ s'.login_attempts.cols)
  ∧ (s.login_mfa_codes.tbl = true → s'.login_mfa_codes.tbl = true
    ∧ ∀ c ∈ s.login_mfa_codes.cols, c ∈ s'.login_mfa_codes.cols)
  ∧ (s.documents.tbl = true → s'.documents.tbl = true
    ∧ ∀ c ∈ s.documents.cols, c ∈ s'.documents.cols)

/-! ## `_exec_try` (`app.py`) -/

/-- A database session: the committed state and the pending
(uncommitted) state, over an abstract state type. -/
structure PgSession (α : Type) where
  committed : α
  pending : α
deriving Repr, DecidableEq

/-- `_exec_try`: execute a statement and commit; on failure roll the
session back.  A statement is a fallible state transformer. -/
def exec_try {α : Type} (stmt : α → Except String α) (s : PgSession α) :
    PgSession α :=
  match stmt s.pending with
  | Except.ok p => { committed := p, pending := p }
  | Except.error _ => { committed := s.committed, pending := s.committed }

/-- The startup healing loop: each statement runs through `_exec_try`, so
a failing statement never stops the remaining statements from running. -/
def exec_try_all {α : Type} (stmts : List (α → Except String α))
    (s : PgSession α) : PgSession α :=
  stmts.foldl (fun acc st => exec_try st acc) s

/-! ## Auto-purge worker (`app.py`, `_start_auto_purge_worker`) -/

/-- The application state consulted by `_start_auto_purge_worker`. -/
structure WorkerConfig where
  auto_purge_expired : Bool := true
  testing : Bool := false
  debug : Bool := false
  werkzeug_run_main : Bool := false
  auto_purge_started : Bool := false
  purge_check_interval_minutes : Int := 1440
deriving Repr, DecidableEq

/-- `_start_auto_purge_worker`: decides whether to start the background
purge thread, and records that it was started.  Returns whether a daemon
thread is spawned together with the updated application state. -/
def start_auto_purge_worker (c : WorkerConfig) : Bool × WorkerConfig :=
  if !c.auto_purge_expired then (false, c)
  else if c.testing then (false, c)
  else if c.debug && !c.werkzeug_run_main then (false, c)
  else if c.auto_purge_started then (false, c)
  else (true, { c with auto_purge_started := true })

/-- The sleep interval of the purge worker:
`max(60, interval_minutes * 60)` seconds. -/
def auto_purge_interval_seconds (c : WorkerConfig) : Int :=
  max 60 (c.purge_check_interval_minutes * 60)

/-! ## Referential integrity -/

/-- Every document references an existing resident and an existing
document type. -/
def wellFormedRefs (db : DB) : Prop :=
  ∀ d ∈ db.documents,
    (∃ r ∈ db.residents, r.id = d.resident_id)
      ∧ (∃ t ∈ db.document_types, t.id = d.document_type_id)

instance (db : DB) : Decidable (wellFormedRefs db) := by
  unfold wellFormedRefs
  infer_instance

/-! ## Concrete states used to evaluate the embedded operations -/

/-- A database with no rows. -/
def dbEmpty : DB := ⟨[], [], [], [], [], [], [], []⟩

/-- A fresh, unauthenticated session. -/
def sessEmpty : SessionS := ⟨none, false, none, none, false, none, false⟩

/-- An archived resident with no recorded updater. -/
def residentEx : ResidentR :=
  ⟨1, none, "Ana", none, "Cruz", "F", ⟨1990, 1, 1⟩, none, "Purok 1", none,
   0, none, none, none, true, some 5, some 2⟩

/-- A database holding only `residentEx`. -/
def dbResidentEx : DB := { dbEmpty with residents := [residentEx] }

/-- An admin user (id 1) with password "pw1". -/
def userAdminEx : UserR :=
  ⟨1, "root", "root@example.com", hashPassword "pw1", "admin", 0⟩

/-- A clerk user (id 2) with password "pw2". -/
def userClerkEx : UserR :=
  ⟨2, "bob", "bob@example.com", hashPassword "pw2", "clerk", 0⟩

/-- A transaction-log row recorded by user 2. -/
def logRowEx : TransactionLogR :=
  ⟨5, some 2, "did a thing", none, none, none, none, none, 10⟩

/-- A database with two users and one transaction-log row by user 2. -/
def dbLogEx : DB :=
  { dbEmpty with users := [userAdminEx, userClerkEx],
                 transaction_logs := [logRowEx] }

/-- A database with the admin user only (for the login flow). -/
def dbAuthEx : DB := { dbEmpty with users := [userAdminEx] }

/-- An active resident (id 1). -/
def residentActiveEx : ResidentR :=
  ⟨1, some "BRGY-2026-00001", "Ana", none, "Cruz", "F", ⟨1990, 1, 1⟩, none,
   "Purok 1", none, 0, none, none, none, false, none, none⟩

/-- A document type (id 1). -/
def docTypeEx : DocumentTypeR :=
  ⟨1, "Barangay Clearance", none, some "barangay_clearance", false⟩

/-- An issued document (id 1) of `residentActiveEx` and `docTypeEx`. -/
def documentEx : DocumentR :=
  ⟨1, 1, 1, "issued", none, ⟨2026, 1, 2⟩, some "uploads/documents/x/y.pdf",
   0, none, none, some 3, false, none, none, none, none, some 1, none⟩

/-- A database with one resident, one document type and one issued
document, satisfying `wellFormedRefs`. -/
def dbDocsEx : DB :=
  { dbEmpty with residents := [residentActiveEx],
                 document_types := [docTypeEx],
                 documents := [documentEx] }

/-- A schema with the core tables present (used to evaluate the healing
pass on a concrete input). -/
def schemaEx : Schema :=
  { residents := ⟨true, ["id", "first_name", "last_name"], false, false⟩
    document_types := ⟨false, []⟩
    users := ⟨true, ["id", "username"]⟩
    transaction_logs := ⟨true, ["id", "user_id", "action", "timestamp"], false, false⟩
    login_attempts := ⟨false, []⟩
    login_mfa_codes := ⟨false, []⟩
    documents := ⟨true, ["id", "resident_id", "doc_type", "issue_date"],
                  false, false, false, false, false, false⟩ }

/-! ## Lemmas about the healing combinators -/

theorem mem_addCol_iff {cols : List String} {c d : String} :
    d ∈ addCol cols c ↔ d ∈ cols ∨ d = c := by
  unfold addCol
  split
  next h =>
    constructor
    · exact Or.inl
    · rintro (hd | rfl)
      · exact hd
      · exact h
  next h =>
    simp only [List.mem_cons]
    tauto

theorem addCol_eq_of_mem {cols : List String} {c : String} (h : c ∈ cols) :
    addCol cols c = cols := by
  simp [addCol, h]

theorem mem_healCols_iff {w cols : List String} {d : String} :
    d ∈ healCols cols w ↔ d ∈ cols ∨ d ∈ w := by
  induction w generalizing cols with
  | nil => simp [healCols]
  | cons c w ih =>
      show d ∈ healCols (addCol cols c) w ↔ _
      rw [ih, mem_addCol_iff]
      simp only [List.mem_cons]
      tauto

theorem healCols_eq_of_forall_mem {w cols : List String}
    (h : ∀ c ∈ w, c ∈ cols) : healCols cols w = cols := by
  induction w generalizing cols with
  | nil => rfl
  | cons c w ih =>
      show healCols (addCol cols c) w = cols
      rw [addCol_eq_of_mem (h c (List.mem_cons_self c w))]
      exact ih fun x hx => h x (List.mem_cons_of_mem c hx)

theorem healCols_idem (cols w : List String) :
    healCols (healCols cols w) w = healCols cols w :=
  healCols_eq_of_forall_mem fun _ hc => mem_healCols_iff.mpr (Or.inr hc)

theorem subset_healCols (cols w : List String) :
    ∀ c ∈ cols, c ∈ healCols cols w :=
  fun _ hc => mem_healCols_iff.mpr (Or.inl hc)

/-! ## Lemmas about `latestByExpiry` -/

theorem mfaPick_eq_or (acc : Option LoginMfaCodeR) (x : LoginMfaCodeR) :
    mfaPick acc x = some x ∨ mfaPick acc x = acc := by
  unfold mfaPick
  cases acc with
  | none => exact Or.inl rfl
  | some b =>
      by_cases h : b.expires_at < x.expires_at
      · simp [h]
      · simp [h]

theorem mfaPick_some_dominates (acc : Option LoginMfaCodeR)
    (x : LoginMfaCodeR) :
    ∃ c, mfaPick acc x = some c ∧ x.expires_at ≤ c.expires_at := by
  unfold mfaPick
  cases acc with
  | none => exact ⟨x, rfl, le_refl _⟩
  | some b =>
      by_cases h : b.expires_at < x.expires_at
      · exact ⟨x, by simp [h], le_refl _⟩
      · exact ⟨b, by simp [h], le_of_not_lt h⟩

theorem mfaPick_mono (b : LoginMfaCodeR) (x : LoginMfaCodeR) :
    ∃ c, mfaPick (some b) x = some c ∧ b.expires_at ≤ c.expires_at := by
  unfold mfaPick
  by_cases h : b.expires_at < x.expires_at
  · exact ⟨x, by simp [h], le_of_lt h⟩
  · exact ⟨b, by simp [h], le_refl _⟩

theorem foldl_mfaPick_eq_some {rows : List LoginMfaCodeR} :
    ∀ {acc : Option LoginMfaCodeR} {r : LoginMfaCodeR},
      rows.foldl mfaPick acc = some r → acc = some r ∨ r ∈ rows := by
  induction rows with
  | nil => intro acc r h; exact Or.inl h
  | cons x xs ih =>
      intro acc r h
      have h' : xs.foldl mfaPick (mfaPick acc x) = some r := h
      rcases ih h' with h1 | h2
      · rcases mfaPick_eq_or acc x with h3 | h3
        · rw [h3] at h1
          cases h1
          exact Or.inr (List.mem_cons_self _ _)
        · rw [h3] at h1
          exact Or.inl h1
      · exact Or.inr (List.mem_cons_of_mem x h2)

theorem latestByExpiry_mem {rows : List LoginMfaCodeR} {r : LoginMfaCodeR}
    (h : latestByExpiry rows = some r) : r ∈ rows := by
  rcases foldl_mfaPick_eq_some h with hc | hm
  · cases hc
  · exact hm

theorem foldl_mfaPick_dominates_acc (rows : List LoginMfaCodeR) :
    ∀ b : LoginMfaCodeR,
      ∃ r, rows.foldl mfaPick (some b) = some r
        ∧ b.expires_at ≤ r.expires_at := by
  induction rows with
  | nil => intro b; exact ⟨b, rfl, le_refl _⟩
  | cons x xs ih =>
      intro b
      obtain ⟨c, hc, hbc⟩ := mfaPick_mono b x
      have hfold : (x :: xs).foldl mfaPick (some b)
          = xs.foldl mfaPick (mfaPick (some b) x) := rfl
      rw [hfold, hc]
      obtain ⟨r, hr, hcr⟩ := ih c
      exact ⟨r, hr, le_trans hbc hcr⟩

theorem foldl_mfaPick_dominates_mem (rows : List LoginMfaCodeR) :
    ∀ (acc : Option LoginMfaCodeR) (q : LoginMfaCodeR), q ∈ rows →
      ∃ r, rows.foldl mfaPick acc = some r ∧ q.expires_at ≤ r.expires_at := by
  induction rows with
  | nil => intro acc q hq; cases hq
  | cons x xs ih =>
      intro acc q hq
      rcases List.mem_cons.mp hq with rfl | hmem
      · obtain ⟨c, hc, hqc⟩ := mfaPick_some_dominates acc q
        have hfold : (q :: xs).foldl mfaPick acc
            = xs.foldl mfaPick (mfaPick acc q) := rfl
        rw [hfold, hc]
        obtain ⟨r, hr, hcr⟩ := foldl_mfaPick_dominates_acc xs c
        exact ⟨r, hr, le_trans hqc hcr⟩
      · exact ih (mfaPick acc x) q hmem

theorem latestByExpiry_dominates {rows : List LoginMfaCodeR}
    {q : LoginMfaCodeR} (hq : q ∈ rows) :
    ∃ r, latestByExpiry rows = some r ∧ q.expires_at ≤ r.expires_at :=
  foldl_mfaPick_dominates_mem rows none q hq

/-! ## Claim C7 -/

/-- C7: when a schema-healing SQL statement fails, `_exec_try` rolls the
session back, leaving the database state unchanged (for the session state
the startup loop runs in, where everything is committed), and the loop
simply continues with the next statement. -/
theorem C7_exec_try_failure_rolls_back {α : Type}
    (stmt : α → Except String α) (s : PgSession α) (e : String)
    (hclean : s.pending = s.committed)
    (hfail : stmt s.pending = Except.error e) :
    exec_try stmt s = s
      ∧ ∀ rest : List (α → Except String α),
          exec_try_all (stmt :: rest) s = exec_try_all rest (exec_try stmt s) := by
  obtain ⟨c, p⟩ := s
  dsimp only at hclean hfail
  subst hclean
  refine ⟨?_, fun rest => rfl⟩
  unfold exec_try
  rw [hfail]

/-- Witness for C7: a failing statement on a clean session of naturals
leaves the session exactly as it was. -/
theorem C7_exec_try_witness :
    (⟨0, 0⟩ : PgSession Nat).pending = (⟨0, 0⟩ : PgSession Nat).committed
      ∧ ((fun _ => Except.error "duplicate column") (0 : Nat)
          = (Except.error "duplicate column" : Except String Nat))
      ∧ exec_try (fun _ => Except.error "duplicate column")
          (⟨0, 0⟩ : PgSession Nat) = ⟨0, 0⟩ :=
  ⟨rfl, rfl,
   (C7_exec_try_failure_rolls_back (fun _ => Except.error "duplicate column")
     ⟨0, 0⟩ "duplicate column" rfl rfl).1⟩

/-! ## Claim C8 -/

/-- C8 counterexample: contrary to the claim that no custom concurrency or
scheduling logic exists, `_start_auto_purge_worker` does start a scheduled
background daemon thread under the default application state, with a
86400-second (daily) interval. -/
theorem C8_counterexample_worker_started :
    (start_auto_purge_worker {}).1 = true
      ∧ auto_purge_interval_seconds {} = 86400 := by
  constructor
  · rfl
  · rfl

/-- C8 (amended): the only custom concurrency in the application is the
auto-purge background worker; it is started exactly when purging is
enabled, the app is not under test, the reloader check passes and it has
not already been started; it is started at most once; and its scheduling
interval is at least 60 seconds. -/
theorem C8_auto_purge_worker_characterization :
    ∀ c : WorkerConfig,
      ((start_auto_purge_worker c).1 = true
        ↔ c.auto_purge_expired = true ∧ c.testing = false
            ∧ (c.debug = false ∨ c.werkzeug_run_main = true)
            ∧ c.auto_purge_started = false)
      ∧ (start_auto_purge_worker (start_auto_purge_worker c).2).1 = false
      ∧ 60 ≤ auto_purge_interval_seconds c := by
  intro c
  obtain ⟨a, t, d, w, s, i⟩ := c
  refine ⟨?_, ?_, le_max_left _ _⟩
  · cases a <;> cases t <;> cases d <;> cases w <;> cases s <;>
      simp [start_auto_purge_worker]
  · cases a <;> cases t <;> cases d <;> cases w <;> cases s <;>
      simp [start_auto_purge_worker]

/-! ## Claim C9 -/

/-- C9: the auto-generated Barangay ID has the documented
`BRGY-<year>-<id padded to 5>` form, but the compiled
`BRGY_ID_PATTERN` regex (written `r"^BRGY-\\d{4}-\\d{5}$"`, a raw string
whose double backslash makes `d{4}` literal) rejects the documented
example `BRGY-2026-00001` (and every auto-generated id), rejecting it in
`add_resident`; the only inputs the pattern accepts are the letter-d
strings shown. -/
theorem C9_brgy_id_pattern_rejects_documented_format :
    autoBarangayId 2026 1 = "BRGY-2026-00001"
      ∧ brgyIdDocumentedMatch "BRGY-2026-00001" = true
      ∧ brgyIdPatternMatch "BRGY-2026-00001" = false
      ∧ add_resident_barangay_id dbEmpty (some "BRGY-2026-00001") 1 2026
          = BrgyIdResult.rejectedFormat
      ∧ brgyIdPatternMatch (autoBarangayId 2026 1) = false
      ∧ brgyIdPatternMatch "BRGY-\\dddd-\\ddddd" = true := by
  refine ⟨?_, ?_, ?_, ?_, ?_, ?_⟩ <;> decide

/-! ## Claim C4 -/

theorem healResidents_idem (x : ResidentsSchema) :
    healResidents (healResidents x) = healResidents x := by
  unfold healResidents
  by_cases h : x.tbl = true
  · simp [h, healCols_idem]
  · simp [h]

theorem healDocumentTypes_idem (x : TableSchema) :
    healDocumentTypes (healDocumentTypes x) = healDocumentTypes x := by
  unfold healDocumentTypes
  by_cases h : x.tbl = true
  · simp [h, healCols_idem]
  · simp [h]
    decide

theorem healUsers_idem (x : TableSchema) :
    healUsers (healUsers x) = healUsers x := by
  unfold healUsers
  by_cases h : x.tbl = true
  · simp [h, healCols_idem]
  · simp [h, healCols_idem]

theorem user_id_not_in_tl_wanted :
    ("user_id" ∈ ["entity_type", "entity_id", "ip_address", "user_agent", "meta"])
      = False := by
  decide

theorem healTransactionLogs_idem (x : TlSchema) :
    healTransactionLogs (healTransactionLogs x) = healTransactionLogs x := by
  unfold healTransactionLogs
  by_cases h : x.tbl = true
  · by_cases hm : "user_id" ∈ x.cols
    · simp [h, hm, healCols_idem, mem_healCols_iff, user_id_not_in_tl_wanted]
    · simp [h, hm, healCols_idem, mem_healCols_iff, user_id_not_in_tl_wanted]
  · simp [h, healCols_idem, mem_healCols_iff]
    decide

theorem healLoginAttempts_idem (x : TableSchema) :
    healLoginAttempts (healLoginAttempts x) = healLoginAttempts x := by
  unfold healLoginAttempts
  by_cases h : x.tbl = true
  · simp [h]
  · simp [h]

theorem healLoginMfa_idem (x : TableSchema) :
    healLoginMfa (healLoginMfa x) = healLoginMfa x := by
  unfold healLoginMfa
  by_cases h : x.tbl = true
  · simp [h]
  · simp [h]

theorem doc_type_not_in_documents_wanted :
    ("doc_type" ∈ documentsWantedCols) = False := by
  decide

theorem healDocuments_idem (x : DocumentsSchema) :
    healDocuments (healDocuments x) = healDocuments x := by
  unfold healDocuments
  by_cases h : x.tbl = true
  · by_cases hm : "doc_type" ∈ x.cols
    · simp [h, hm, healCols_idem, mem_healCols_iff, doc_type_not_in_documents_wanted]
    · simp [h, hm, healCols_idem, mem_healCols_iff, doc_type_not_in_documents_wanted]
  · simp [h]

theorem healSchema_idem (s : Schema) :
    healSchema (healSchema s) = healSchema s := by
  unfold healSchema
  simp only [healResidents_idem, healDocumentTypes_idem, healUsers_idem,
    healTransactionLogs_idem, healLoginAttempts_idem, healLoginMfa_idem,
    healDocuments_idem]

theorem healResidents_additive (x : ResidentsSchema) (h : x.tbl = true) :
    (healResidents x).tbl = true
      ∧ ∀ c ∈ x.cols, c ∈ (healResidents x).cols := by
  unfold healResidents
  simp only [h, if_true]
  exact ⟨trivial, subset_healCols _ _⟩

theorem healDocumentTypes_additive (x : TableSchema) (h : x.tbl = true) :
    (healDocumentTypes x).tbl = true
      ∧ ∀ c ∈ x.cols, c ∈ (healDocumentTypes x).cols := by
  unfold healDocumentTypes
  simp only [h, if_true]
  exact ⟨trivial, subset_healCols _ _⟩

theorem healUsers_additive (x : TableSchema) (h : x.tbl = true) :
    (healUsers x).tbl = true ∧ ∀ c ∈ x.cols, c ∈ (healUsers x).cols := by
  unfold healUsers
  simp only [h, if_true]
  exact ⟨trivial, subset_healCols _ _⟩

theorem healTransactionLogs_additive (x : TlSchema) (h : x.tbl = true) :
    (healTransactionLogs x).tbl = true
      ∧ ∀ c ∈ x.cols, c ∈ (healTransactionLogs x).cols := by
  unfold healTransactionLogs
  simp only [h, if_true]
  by_cases hm : "user_id" ∈ x.cols
  · simp only [hm, if_true]
    exact ⟨trivial, subset_healCols _ _⟩
  · simp only [hm, if_false]
    exact ⟨trivial, subset_healCols _ _⟩

theorem healLoginAttempts_additive (x : TableSchema) (h : x.tbl = true) :
    (healLoginAttempts x).tbl = true
      ∧ ∀ c ∈ x.cols, c ∈ (healLoginAttempts x).cols := by
  unfold healLoginAttempts
  simp only [h, if_true]
  exact ⟨trivial, fun c hc => hc⟩

theorem healLoginMfa_additive (x : TableSchema) (h : x.tbl = true) :
    (healLoginMfa x).tbl = true
      ∧ ∀ c ∈ x.cols, c ∈ (healLoginMfa x).cols := by
  unfold healLoginMfa
  simp only [h, if_true]
  exact ⟨trivial, fun c hc => hc⟩

theorem healDocuments_additive (x : DocumentsSchema) (h : x.tbl = true) :
    (healDocuments x).tbl = true
      ∧ ∀ c ∈ x.cols, c ∈ (healDocuments x).cols := by
  unfold healDocuments
  simp only [h, if_true]
  exact ⟨trivial, subset_healCols _ _⟩

/-- C4: the startup schema-healing pass is idempotent (running it twice
yields the same schema as running it once) and purely additive (it never
drops a table and never removes an existing column). -/
theorem C4_heal_schema_idempotent_additive :
    ∀ s : Schema,
      healSchema (healSchema s) = healSchema s
        ∧ schemaAdditive s (healSchema s) := by
  intro s
  refine ⟨healSchema_idem s, ?_⟩
  unfold schemaAdditive healSchema
  exact ⟨fun h => healResidents_additive _ h,
         fun h => healDocumentTypes_additive _ h,
         fun h => healUsers_additive _ h,
         fun h => healTransactionLogs_additive _ h,
         fun h => healLoginAttempts_additive _ h,
         fun h => healLoginMfa_additive _ h,
         fun h => healDocuments_additive _ h⟩

/-- Witness for C4: the healing pass evaluated on a concrete legacy
schema is idempotent and additive. -/
theorem C4_heal_schema_witness :
    healSchema (healSchema schemaEx) = healSchema schemaEx
      ∧ schemaAdditive schemaEx (healSchema schemaEx) :=
  C4_heal_schema_idempotent_additive schemaEx

/-! ## Claim C2 -/

/-- C2 counterexample: `restore_resident` does not leave all fields other
than the archive fields unchanged — it also sets `updated_at` and
`updated_by_id`.  On a database holding one archived resident whose
`updated_at`/`updated_by_id` are NULL, a restore by user 7 at time 50
changes both. -/
theorem C2_counterexample_restore_changes_updater :
    (restore_resident dbResidentEx 7 50 none none 1 9).residents.map
        (fun r => r.updated_by_id) = [some 7]
      ∧ dbResidentEx.residents.map (fun r => r.updated_by_id) = [none]
      ∧ (restore_resident dbResidentEx 7 50 none none 1 9).residents.map
          (fun r => r.updated_at) = [some 50]
      ∧ dbResidentEx.residents.map (fun r => r.updated_at) = [none] := by
  refine ⟨?_, ?_, ?_, ?_⟩ <;> decide

/-- C2 (amended): `delete_resident` is a soft delete — it removes no
resident row, archives the resident (recording `archived_at`,
`archived_by_id`, `updated_at`, `updated_by_id`), and archives every
non-archived document of that resident, touching no other document;
`restore_resident` clears `is_archived`, `archived_at` and
`archived_by_id` and also records the restore in `updated_at` and
`updated_by_id`, leaving every other resident field unchanged and
leaving documents untouched. -/
theorem C2_soft_delete_and_restore (db : DB) (actor : Nat) (now : Int)
    (ip ua : Option String) (rid logId : Nat) (r0 : ResidentR)
    (hfind : db.residents.find? (fun r => r.id == rid) = some r0) :
    (delete_resident db actor now ip ua rid logId).residents.length
        = db.residents.length
    ∧ (∀ x ∈ db.residents, x.id ≠ rid →
        x ∈ (delete_resident db actor now ip ua rid logId).residents)
    ∧ (∀ x ∈ db.residents, x.id = rid →
        { x with is_archived := true, archived_at := some now,
                 archived_by_id := some actor, updated_at := some now,
                 updated_by_id := some actor }
          ∈ (delete_resident db actor now ip ua rid logId).residents)
    ∧ (delete_resident db actor now ip ua rid logId).documents.length
        = db.documents.length
    ∧ (∀ d ∈ db.documents, d.resident_id = rid → d.is_archived = false →
        { d with is_archived := true, archived_at := some now,
                 archived_by_id := some actor, updated_at := some now,
                 updated_by_id := some actor }
          ∈ (delete_resident db actor now ip ua rid logId).documents)
    ∧ (∀ d ∈ db.documents, d.resident_id ≠ rid ∨ d.is_archived = true →
        d ∈ (delete_resident db actor now ip ua rid logId).documents)
    ∧ (restore_resident db actor now ip ua rid logId).residents.length
        = db.residents.length
    ∧ (∀ x ∈ db.residents, x.id ≠ rid →
        x ∈ (restore_resident db actor now ip ua rid logId).residents)
    ∧ (∀ x ∈ db.residents, x.id = rid →
        { x with is_archived := false, archived_at := none,
                 archived_by_id := none, updated_at := some now,
                 updated_by_id := some actor }
          ∈ (restore_resident db actor now ip ua rid logId).residents)
    ∧ (restore_resident db actor now ip ua rid logId).documents
        = db.documents := by
  unfold delete_resident restore_resident
  rw [hfind]
  simp only [log_action]
  refine ⟨?_, ?_, ?_, ?_, ?_, ?_, ?_, ?_, ?_, ?_⟩
  · simp [List.length_map]
  · intro x hx hne
    have hbeq : (x.id == rid) = false := by simpa using hne
    exact List.mem_map.mpr ⟨x, hx, by simp [hbeq]⟩
  · intro x hx he
    have hbeq : (x.id == rid) = true := by simpa using he
    exact List.mem_map.mpr ⟨x, hx, by simp [hbeq]⟩
  · simp [List.length_map]
  · intro d hd hres harch
    have hbeq : (d.resident_id == rid) = true := by simpa using hres
    exact List.mem_map.mpr ⟨d, hd, by simp [hbeq, harch]⟩
  · intro d hd hor
    refine List.mem_map.mpr ⟨d, hd, ?_⟩
    rcases hor with hne | harch
    · have hbeq : (d.resident_id == rid) = false := by simpa using hne
      simp [hbeq]
    · simp [harch]
  · simp [List.length_map]
  · intro x hx hne
    have hbeq : (x.id == rid) = false := by simpa using hne
    exact List.mem_map.mpr ⟨x, hx, by simp [hbeq]⟩
  · intro x hx he
    have hbeq : (x.id == rid) = true := by simpa using he
    exact List.mem_map.mpr ⟨x, hx, by simp [hbeq]⟩
  · trivial

/-- Witness for C2: the characterization evaluated on the concrete
archived resident. -/
theorem C2_soft_delete_restore_witness :
    dbResidentEx.residents.find? (fun r => r.id == 1) = some residentEx
      ∧ (restore_resident dbResidentEx 7 50 none none 1 9).documents
          = dbResidentEx.documents :=
  ⟨by decide,
   (C2_soft_delete_and_restore dbResidentEx 7 50 none none 1 9 residentEx
     (by decide)).2.2.2.2.2.2.2.2.2⟩

/-! ## Claim C5 -/

/-- The path the download route serves for a stored relative path equals
the path `generate_document_pdf` wrote, under the default
`UPLOAD_FOLDER` (`<root>/static/uploads`). -/
theorem pdf_paths_consistent (root : String) (tname : Option String)
    (rid : Nat) (ts : String) :
    download_resolve_path root (generate_pdf_rel_path tname rid ts)
      = generate_pdf_abs_path (defaultUploadFolder root) tname rid ts := by
  unfold download_resolve_path generate_pdf_rel_path generate_pdf_abs_path
    defaultUploadFolder
  simp only [joinPath, String.append_assoc]

/-- C5: `generate_document_pdf` writes the PDF under the uploads folder
in `documents/<sanitized type name>/` and returns the matching path
relative to `/static`; the download route resolves the stored `file_path`
against `/static` and serves exactly that file, generating the PDF on
demand when `file_path` is empty; with the default upload folder the
resolved path is exactly the written path. -/
theorem C5_pdf_generation_and_download :
    (∀ (tname : Option String) (rid : Nat) (ts : String),
      generate_pdf_rel_path tname rid ts
        = "uploads" ++ "/" ++ "documents" ++ "/" ++ pdfFolder tname ++ "/"
            ++ pdfFileName (pdfFolder tname) rid ts)
    ∧ (∀ (u : String) (tname : Option String) (rid : Nat) (ts : String),
        generate_pdf_abs_path u tname rid ts
          = u ++ "/" ++ "documents" ++ "/" ++ pdfFolder tname ++ "/"
              ++ pdfFileName (pdfFolder tname) rid ts)
    ∧ generate_pdf_rel_path (some "Barangay Clearance") 7 "20260101_000000"
        = "uploads/documents/barangay_clearance/barangay_clearance_resident_7_20260101_000000.pdf"
    ∧ (∀ (root : String) (tname : Option String) (rid : Nat) (ts : String),
        download_resolve_path root (generate_pdf_rel_path tname rid ts)
          = generate_pdf_abs_path (defaultUploadFolder root) tname rid ts)
    ∧ (∀ (root u : String) (tname : Option String) (doc : DocumentR)
          (disk : List String) (ts p : String),
        doc.is_archived = false → doc.status = "issued" →
        doc.file_path = some p → p ≠ "" →
        disk.contains (download_resolve_path root p) = true →
        download_document_pdf root u tname doc disk ts
          = ⟨DownloadOutcome.served, some (download_resolve_path root p),
             some p, disk⟩)
    ∧ (∀ (root : String) (tname : Option String) (doc : DocumentR)
          (disk : List String) (ts : String),
        doc.is_archived = false → doc.status = "issued" →
        doc.file_path = none →
        download_document_pdf root (defaultUploadFolder root) tname doc disk ts
          = ⟨DownloadOutcome.served,
             some (download_resolve_path root
               (generate_pdf_rel_path tname doc.resident_id ts)),
             some (generate_pdf_rel_path tname doc.resident_id ts),
             generate_pdf_abs_path (defaultUploadFolder root) tname
               doc.resident_id ts :: disk⟩) := by
  refine ⟨?_, ?_, ?_, ?_, ?_, ?_⟩
  · intro tname rid ts
    rfl
  · intro u tname rid ts
    rfl
  · decide
  · exact fun root tname rid ts => pdf_paths_consistent root tname rid ts
  · intro root u tname doc disk ts p harch hstat hfp hp hdisk
    unfold download_document_pdf
    rw [harch, hstat, hfp]
    have hmem : download_resolve_path root p ∈ disk := by
      simpa using hdisk
    simp [hp, hmem]
  · intro root tname doc disk ts harch hstat hfp
    unfold download_document_pdf
    rw [harch, hstat, hfp]
    simp [pdf_paths_consistent]

/-- Disk contents matching `documentEx`'s stored `file_path` under app
root "approot". -/
def diskEx : List String := ["approot/static/uploads/documents/x/y.pdf"]

/-- Witness for C5: the issued `documentEx` with a stored `file_path`
present on disk is served exactly at that path resolved against
`/static`. -/
theorem C5_pdf_download_witness :
    documentEx.is_archived = false
      ∧ documentEx.status = "issued"
      ∧ documentEx.file_path = some "uploads/documents/x/y.pdf"
      ∧ diskEx.contains
          (download_resolve_path "approot" "uploads/documents/x/y.pdf") = true
      ∧ download_document_pdf "approot" (defaultUploadFolder "approot")
          (some "Barangay Clearance") documentEx diskEx "20260101_000000"
          = ⟨DownloadOutcome.served,
             some (download_resolve_path "approot" "uploads/documents/x/y.pdf"),
             some "uploads/documents/x/y.pdf", diskEx⟩ :=
  ⟨by decide, by decide, by decide, by decide,
   C5_pdf_generation_and_download.2.2.2.2.1 "approot"
     (defaultUploadFolder "approot") (some "Barangay Clearance") documentEx
     diskEx "20260101_000000" "uploads/documents/x/y.pdf"
     (by decide) (by decide) (by decide) (by decide) (by decide)⟩

/-! ## Claim C3 -/

theorem logs_suffix_log_action (db : DB) (actor : Option Nat) (lid : Nat)
    (now : Int) (ip ua : Option String) (action : String)
    (et : Option String) (ei : Option Nat) (m : Option Meta) :
    List.IsSuffix db.transaction_logs
      (log_action db actor lid now ip ua action et ei m).transaction_logs := by
  unfold log_action
  cases actor with
  | none => exact List.suffix_rfl
  | some uid => exact List.suffix_cons _ _

theorem logs_suffix_delete_resident (db : DB) (actor : Nat) (now : Int)
    (ip ua : Option String) (rid lid : Nat) :
    List.IsSuffix db.transaction_logs
      (delete_resident db actor now ip ua rid lid).transaction_logs := by
  unfold delete_resident
  cases db.residents.find? (fun r => r.id == rid) with
  | none => exact List.suffix_rfl
  | some r => exact List.suffix_cons _ _

theorem logs_suffix_restore_resident (db : DB) (actor : Nat) (now : Int)
    (ip ua : Option String) (rid lid : Nat) :
    List.IsSuffix db.transaction_logs
      (restore_resident db actor now ip ua rid lid).transaction_logs := by
  unfold restore_resident
  cases db.residents.find? (fun r => r.id == rid) with
  | none => exact List.suffix_rfl
  | some r => exact List.suffix_cons _ _

theorem logs_suffix_issue_document (db : DB) (actor : Nat) (now : Int)
    (today : Date) (ip ua : Option String) (rid tid : Nat)
    (details : Option String) (issueDate : Option Date)
    (photoPath : Option String) (ndid lid : Nat) :
    List.IsSuffix db.transaction_logs
      (issue_document db actor now today ip ua rid tid details issueDate
        photoPath ndid lid).transaction_logs := by
  unfold issue_document
  repeat' first
    | exact List.suffix_rfl
    | exact List.suffix_cons _ _
    | exact (List.suffix_cons _ _).trans (List.suffix_cons _ _)
    | split
    | dsimp only

theorem logs_suffix_edit_document (db : DB) (actor : Nat) (now : Int)
    (today : Date) (ip ua : Option String) (did rid tid : Nat)
    (details : Option String) (issueDate : Option Date) (lid : Nat) :
    List.IsSuffix db.transaction_logs
      (edit_document db actor now today ip ua did rid tid details issueDate
        lid).transaction_logs := by
  unfold edit_document
  repeat' first
    | exact List.suffix_rfl
    | exact List.suffix_cons _ _
    | exact (List.suffix_cons _ _).trans (List.suffix_cons _ _)
    | split
    | dsimp only

theorem logs_suffix_revise_document (db : DB) (actor : Nat) (now : Int)
    (today : Date) (ip ua : Option String) (did ndid lid : Nat) :
    List.IsSuffix db.transaction_logs
      (revise_document db actor now today ip ua did ndid lid).transaction_logs := by
  unfold revise_document
  repeat' first
    | exact List.suffix_rfl
    | exact List.suffix_cons _ _
    | exact (List.suffix_cons _ _).trans (List.suffix_cons _ _)
    | split
    | dsimp only

theorem logs_suffix_delete_document (db : DB) (actor : Nat) (now : Int)
    (ip ua : Option String) (did lid : Nat) :
    List.IsSuffix db.transaction_logs
      (delete_document db actor now ip ua did lid).transaction_logs := by
  unfold delete_document
  repeat' first
    | exact List.suffix_rfl
    | exact List.suffix_cons _ _
    | exact (List.suffix_cons _ _).trans (List.suffix_cons _ _)
    | split
    | dsimp only

theorem logs_suffix_restore_document (db : DB) (actor : Nat) (now : Int)
    (ip ua : Option String) (did lid : Nat) :
    List.IsSuffix db.transaction_logs
      (restore_document db actor now ip ua did lid).transaction_logs := by
  unfold restore_document
  repeat' first
    | exact List.suffix_rfl
    | exact List.suffix_cons _ _
    | exact (List.suffix_cons _ _).trans (List.suffix_cons _ _)
    | split
    | dsimp only

theorem logs_suffix_finalize_document_issue (db : DB) (actor : Nat)
    (now : Int) (today : Date) (ip ua : Option String) (did : Nat)
    (pdfRelPath : String) (lid : Nat) :
    List.IsSuffix db.transaction_logs
      (finalize_document_issue db actor now today ip ua did pdfRelPath
        lid).transaction_logs := by
  unfold finalize_document_issue
  repeat' first
    | exact List.suffix_rfl
    | exact List.suffix_cons _ _
    | exact (List.suffix_cons _ _).trans (List.suffix_cons _ _)
    | split
    | dsimp only

theorem logs_suffix_delete_document_type (db : DB) (actor : Nat) (now : Int)
    (ip ua : Option String) (tid lid : Nat) :
    List.IsSuffix db.transaction_logs
      (delete_document_type db actor now ip ua tid lid).transaction_logs := by
  unfold delete_document_type
  repeat' first
    | exact List.suffix_rfl
    | exact List.suffix_cons _ _
    | exact (List.suffix_cons _ _).trans (List.suffix_cons _ _)
    | split
    | dsimp only

theorem logs_suffix_process_expired_documents (db : DB) (months grace : Int)
    (now : Int) (today cutoffDate : Date) (lid1 lid2 : Nat) :
    List.IsSuffix db.transaction_logs
      (process_expired_documents db months grace now today cutoffDate lid1
        lid2).transaction_logs := by
  unfold process_expired_documents
  repeat' first
    | exact List.suffix_rfl
    | exact List.suffix_cons _ _
    | exact (List.suffix_cons _ _).trans (List.suffix_cons _ _)
    | split
    | dsimp only

theorem logs_suffix_login (cfg : ConfigS) (db : DB) (sess : SessionS)
    (now : Int) (ip ua : Option String) (un pwd : String) (rem : Bool)
    (np : Option String) (gen : String) (aid mid lid : Nat) :
    List.IsSuffix db.transaction_logs
      (login cfg db sess now ip ua un pwd rem np gen aid mid lid).db.transaction_logs := by
  unfold login
  repeat' first
    | exact List.suffix_rfl
    | exact List.suffix_cons _ _
    | exact (List.suffix_cons _ _).trans (List.suffix_cons _ _)
    | split
    | dsimp only

theorem logs_suffix_mfa_verify (db : DB) (sess : SessionS) (now : Int)
    (ip ua : Option String) (sub : String) (lid : Nat) :
    List.IsSuffix db.transaction_logs
      (mfa_verify db sess now ip ua sub lid).db.transaction_logs := by
  unfold mfa_verify
  repeat' first
    | exact List.suffix_rfl
    | exact List.suffix_cons _ _
    | exact (List.suffix_cons _ _).trans (List.suffix_cons _ _)
    | split
    | dsimp only

theorem logs_delete_user (db : DB) (actor : Nat) (now : Int)
    (ip ua : Option String) (uid lid : Nat) :
    (delete_user db actor now ip ua uid lid).transaction_logs
        = db.transaction_logs
      ∨ ∃ row, (delete_user db actor now ip ua uid lid).transaction_logs
          = row :: db.transaction_logs.map (detachLog uid) := by
  unfold delete_user
  by_cases h : (uid == actor) = true
  · simp [h]
  · simp only [h, Bool.false_eq_true, if_false]
    cases hfind : db.users.find? (fun u => u.id == uid) with
    | none => exact Or.inl rfl
    | some u =>
        right
        have huid : u.id = uid := by
          have hp := List.find?_some hfind
          simpa using hp
        refine ⟨⟨lid, some actor, "Deleted user", some "user", none, ip, ua,
          some [("username", u.username)], now⟩, ?_⟩
        simp [log_action, huid]

theorem detachLog_fields (uid : Nat) (l : TransactionLogR) :
    (detachLog uid l).id = l.id ∧ (detachLog uid l).action = l.action
      ∧ (detachLog uid l).entity_type = l.entity_type
      ∧ (detachLog uid l).entity_id = l.entity_id
      ∧ (detachLog uid l).ip_address = l.ip_address
      ∧ (detachLog uid l).user_agent = l.user_agent
      ∧ (detachLog uid l).meta = l.meta
      ∧ (detachLog uid l).timestamp = l.timestamp
      ∧ ((detachLog uid l).user_id = l.user_id
          ∨ (detachLog uid l).user_id = none) := by
  unfold detachLog
  split
  · exact ⟨rfl, rfl, rfl, rfl, rfl, rfl, rfl, rfl, Or.inr rfl⟩
  · exact ⟨rfl, rfl, rfl, rfl, rfl, rfl, rfl, rfl, Or.inl rfl⟩

/-- C3 counterexample: `delete_user` updates an existing `TransactionLog`
row in place — deleting user 2 sets the stored row's `user_id` from
`some 2` to `none` — so the log is not strictly append-only. -/
theorem C3_counterexample_delete_user_updates_log :
    dbLogEx.transaction_logs = [logRowEx]
      ∧ logRowEx.user_id = some 2
      ∧ (delete_user dbLogEx 1 100 none none 2 7).transaction_logs
          = [⟨7, some 1, "Deleted user", some "user", none, none, none,
              some [("username", "bob")], 100⟩,
             { logRowEx with user_id := none }]
      ∧ (delete_user dbLogEx 1 100 none none 2 7).transaction_logs.map
          (fun l => l.user_id) = [some 1, none] := by
  refine ⟨?_, ?_, ?_, ?_⟩ <;> decide

/-- C3 (amended): the transaction log is append-only up to one
exception: every embedded operation leaves the existing log rows intact
as a suffix and only prepends new rows, except `delete_user`, which
additionally detaches the deleted user's rows by setting their `user_id`
to NULL — every other field of every existing row is preserved, and no
operation ever deletes a log row. -/
theorem C3_transaction_log_append_only :
    (∀ db actor lid now ip ua action et ei m,
      List.IsSuffix db.transaction_logs
        (log_action db actor lid now ip ua action et ei m).transaction_logs)
    ∧ (∀ db actor now ip ua rid lid,
        List.IsSuffix db.transaction_logs
          (delete_resident db actor now ip ua rid lid).transaction_logs)
    ∧ (∀ db actor now ip ua rid lid,
        List.IsSuffix db.transaction_logs
          (restore_resident db actor now ip ua rid lid).transaction_logs)
    ∧ (∀ db actor now today ip ua rid tid details issueDate photoPath ndid lid,
        List.IsSuffix db.transaction_logs
          (issue_document db actor now today ip ua rid tid details issueDate
            photoPath ndid lid).transaction_logs)
    ∧ (∀ db actor now today ip ua did rid tid details issueDate lid,
        List.IsSuffix db.transaction_logs
          (edit_document db actor now today ip ua did rid tid details
            issueDate lid).transaction_logs)
    ∧ (∀ db actor now today ip ua did ndid lid,
        List.IsSuffix db.transaction_logs
          (revise_document db actor now today ip ua did ndid
            lid).transaction_logs)
    ∧ (∀ db actor now ip ua did lid,
        List.IsSuffix db.transaction_logs
          (delete_document db actor now ip ua did lid).transaction_logs)
    ∧ (∀ db actor now ip ua did lid,
        List.IsSuffix db.transaction_logs
          (restore_document db actor now ip ua did lid).transaction_logs)
    ∧ (∀ db actor now today ip ua did pdfRelPath lid,
        List.IsSuffix db.transaction_logs
          (finalize_document_issue db actor now today ip ua did pdfRelPath
            lid).transaction_logs)
    ∧ (∀ db actor now ip ua tid lid,
        List.IsSuffix db.transaction_logs
          (delete_document_type db actor now ip ua tid lid).transaction_logs)
    ∧ (∀ db months grace now today cutoffDate lid1 lid2,
        List.IsSuffix db.transaction_logs
          (process_expired_documents db months grace now today cutoffDate
            lid1 lid2).transaction_logs)
    ∧ (∀ cfg db sess now ip ua un pwd rem np gen aid mid lid,
        List.IsSuffix db.transaction_logs
          (login cfg db sess now ip ua un pwd rem np gen aid mid
            lid).db.transaction_logs)
    ∧ (∀ db sess now ip ua sub lid,
        List.IsSuffix db.transaction_logs
          (mfa_verify db sess now ip ua sub lid).db.transaction_logs)
    ∧ (∀ db actor now ip ua uid lid,
        (delete_user db actor now ip ua uid lid).transaction_logs
            = db.transaction_logs
          ∨ ∃ row, (delete_user db actor now ip ua uid lid).transaction_logs
              = row :: db.transaction_logs.map (detachLog uid))
    ∧ (∀ uid l,
        (detachLog uid l).id = l.id ∧ (detachLog uid l).action = l.action
          ∧ (detachLog uid l).entity_type = l.entity_type
          ∧ (detachLog uid l).entity_id = l.entity_id
          ∧ (detachLog uid l).ip_address = l.ip_address
          ∧ (detachLog uid l).user_agent = l.user_agent
          ∧ (detachLog uid l).meta = l.meta
          ∧ (detachLog uid l).timestamp = l.timestamp
          ∧ ((detachLog uid l).user_id = l.user_id
              ∨ (detachLog uid l).user_id = none)) :=
  ⟨logs_suffix_log_action, logs_suffix_delete_resident,
   logs_suffix_restore_resident, logs_suffix_issue_document,
   logs_suffix_edit_document, logs_suffix_revise_document,
   logs_suffix_delete_document, logs_suffix_restore_document,
   logs_suffix_finalize_document_issue, logs_suffix_delete_document_type,
   logs_suffix_process_expired_documents, logs_suffix_login,
   logs_suffix_mfa_verify, logs_delete_user, detachLog_fields⟩

/-! ## Claim C6 -/

theorem wellFormedRefs_log_action (db : DB) (actor : Option Nat) (lid : Nat)
    (now : Int) (ip ua : Option String) (action : String) (et : Option String)
    (ei : Option Nat) (m : Option Meta) (h : wellFormedRefs db) :
    wellFormedRefs (log_action db actor lid now ip ua action et ei m) := by
  unfold log_action
  cases actor with
  | none => exact h
  | some uid => exact fun d hd => h d hd

theorem wellFormedRefs_update_documents (db : DB) (f : DocumentR → DocumentR)
    (hf : ∀ d, (f d).resident_id = d.resident_id
        ∧ (f d).document_type_id = d.document_type_id)
    (h : wellFormedRefs db) :
    wellFormedRefs { db with documents := db.documents.map f } := by
  intro d hd
  obtain ⟨d0, hd0, rfl⟩ := List.mem_map.mp hd
  obtain ⟨⟨r, hr, hrid⟩, ⟨t, ht, htid⟩⟩ := h d0 hd0
  exact ⟨⟨r, hr, by rw [(hf d0).1]; exact hrid⟩,
         ⟨t, ht, by rw [(hf d0).2]; exact htid⟩⟩

theorem wellFormedRefs_update_residents (db : DB) (g : ResidentR → ResidentR)
    (hg : ∀ r, (g r).id = r.id) (h : wellFormedRefs db) :
    wellFormedRefs { db with residents := db.residents.map g } := by
  intro d hd
  obtain ⟨⟨r, hr, hrid⟩, ⟨t, ht, htid⟩⟩ := h d hd
  exact ⟨⟨g r, List.mem_map_of_mem g hr, by rw [hg]; exact hrid⟩,
         ⟨t, ht, htid⟩⟩

theorem wellFormedRefs_update_both (db : DB) (g : ResidentR → ResidentR)
    (f : DocumentR → DocumentR)
    (hg : ∀ r, (g r).id = r.id)
    (hf : ∀ d, (f d).resident_id = d.resident_id
        ∧ (f d).document_type_id = d.document_type_id)
    (h : wellFormedRefs db) :
    wellFormedRefs { db with residents := db.residents.map g,
                             documents := db.documents.map f } := by
  intro d hd
  obtain ⟨d0, hd0, rfl⟩ := List.mem_map.mp hd
  obtain ⟨⟨r, hr, hrid⟩, ⟨t, ht, htid⟩⟩ := h d0 hd0
  exact ⟨⟨g r, List.mem_map_of_mem g hr, by rw [hg, (hf d0).1]; exact hrid⟩,
         ⟨t, ht, by rw [(hf d0).2]; exact htid⟩⟩

theorem wellFormedRefs_cons_document (db : DB) (doc : DocumentR)
    (hr : ∃ r ∈ db.residents, r.id = doc.resident_id)
    (ht : ∃ t ∈ db.document_types, t.id = doc.document_type_id)
    (h : wellFormedRefs db) :
    wellFormedRefs { db with documents := doc :: db.documents } := by
  intro d hd
  rcases List.mem_cons.mp hd with rfl | hd2
  · exact ⟨hr, ht⟩
  · exact h d hd2

theorem wellFormedRefs_update_residents_cons_document (db : DB)
    (g : ResidentR → ResidentR) (doc : DocumentR)
    (hg : ∀ r, (g r).id = r.id)
    (hr : ∃ r ∈ db.residents, r.id = doc.resident_id)
    (ht : ∃ t ∈ db.document_types, t.id = doc.document_type_id)
    (h : wellFormedRefs db) :
    wellFormedRefs { db with residents := db.residents.map g,
                             documents := doc :: db.documents } := by
  intro d hd
  rcases List.mem_cons.mp hd with rfl | hd2
  · obtain ⟨r, hrm, hre⟩ := hr
    exact ⟨⟨g r, List.mem_map_of_mem g hrm, by rw [hg]; exact hre⟩, ht⟩
  · obtain ⟨⟨r, hrm, hre⟩, ⟨t, htm, hte⟩⟩ := h d hd2
    exact ⟨⟨g r, List.mem_map_of_mem g hrm, by rw [hg]; exact hre⟩,
           ⟨t, htm, hte⟩⟩

theorem wellFormedRefs_map_filter_documents (db : DB)
    (f : DocumentR → DocumentR) (q : DocumentR → Bool)
    (hf : ∀ d, (f d).resident_id = d.resident_id
        ∧ (f d).document_type_id = d.document_type_id)
    (h : wellFormedRefs db) :
    wellFormedRefs { db with documents := (db.documents.map f).filter q } := by
  intro d hd
  have hd2 := List.mem_of_mem_filter hd
  obtain ⟨d0, hd0, rfl⟩ := List.mem_map.mp hd2
  obtain ⟨⟨r, hr, hrid⟩, ⟨t, ht, htid⟩⟩ := h d0 hd0
  exact ⟨⟨r, hr, by rw [(hf d0).1]; exact hrid⟩,
         ⟨t, ht, by rw [(hf d0).2]; exact htid⟩⟩

theorem refs_delete_resident (db : DB) (actor : Nat) (now : Int)
    (ip ua : Option String) (rid lid : Nat) (h : wellFormedRefs db) :
    wellFormedRefs (delete_resident db actor now ip ua rid lid) := by
  unfold delete_resident
  cases db.residents.find? (fun r => r.id == rid) with
  | none => exact h
  | some r0 =>
      apply wellFormedRefs_log_action
      apply wellFormedRefs_update_both _ _ _ ?hg ?hf h
      case hg => intro r; split <;> rfl
      case hf => intro d; constructor <;> (split <;> rfl)

theorem refs_restore_resident (db : DB) (actor : Nat) (now : Int)
    (ip ua : Option String) (rid lid : Nat) (h : wellFormedRefs db) :
    wellFormedRefs (restore_resident db actor now ip ua rid lid) := by
  unfold restore_resident
  cases db.residents.find? (fun r => r.id == rid) with
  | none => exact h
  | some r0 =>
      apply wellFormedRefs_log_action
      apply wellFormedRefs_update_residents _ _ ?hg h
      case hg => intro r; split <;> rfl

theorem refs_delete_document (db : DB) (actor : Nat) (now : Int)
    (ip ua : Option String) (did lid : Nat) (h : wellFormedRefs db) :
    wellFormedRefs (delete_document db actor now ip ua did lid) := by
  unfold delete_document
  cases db.documents.find? (fun d => d.id == did) with
  | none => exact h
  | some d0 =>
      apply wellFormedRefs_log_action
      apply wellFormedRefs_update_documents _ _ ?hf h
      case hf => intro d; constructor <;> (split <;> rfl)

theorem refs_restore_document (db : DB) (actor : Nat) (now : Int)
    (ip ua : Option String) (did lid : Nat) (h : wellFormedRefs db) :
    wellFormedRefs (restore_document db actor now ip ua did lid) := by
  unfold restore_document
  cases db.documents.find? (fun d => d.id == did) with
  | none => exact h
  | some d0 =>
      apply wellFormedRefs_log_action
      apply wellFormedRefs_update_documents _ _ ?hf h
      case hf => intro d; constructor <;> (split <;> rfl)

theorem refs_delete_user (db : DB) (actor : Nat) (now : Int)
    (ip ua : Option String) (uid lid : Nat) (h : wellFormedRefs db) :
    wellFormedRefs (delete_user db actor now ip ua uid lid) := by
  unfold delete_user
  repeat' first
    | exact h
    | exact fun d hd => h d hd
    | split
    | dsimp only

theorem refs_process_expired_documents (db : DB) (months grace now : Int)
    (today cutoffDate : Date) (lid1 lid2 : Nat) (h : wellFormedRefs db) :
    wellFormedRefs (process_expired_documents db months grace now today
      cutoffDate lid1 lid2) := by
  unfold process_expired_documents
  repeat' first
    | exact h
    | exact wellFormedRefs_map_filter_documents db _ _
        (fun d => by constructor <;> (split <;> rfl)) h
    | split
    | dsimp only

theorem refs_issue_document (db : DB) (actor : Nat) (now : Int)
    (today : Date) (ip ua : Option String) (rid tid : Nat)
    (details : Option String) (issueDate : Option Date)
    (photoPath : Option String) (ndid lid : Nat) (h : wellFormedRefs db) :
    wellFormedRefs (issue_document db actor now today ip ua rid tid details
      issueDate photoPath ndid lid) := by
  unfold issue_document
  cases hfr : db.residents.find? (fun r => r.id == rid) with
  | none => exact h
  | some r =>
      cases hft : db.document_types.find? (fun t => t.id == tid) with
      | none => exact h
      | some t =>
          have hrmem : r ∈ db.residents := List.mem_of_find?_eq_some hfr
          have htmem : t ∈ db.document_types := List.mem_of_find?_eq_some hft
          dsimp only
          repeat' first
            | exact h
            | (apply wellFormedRefs_log_action
               refine wellFormedRefs_update_residents_cons_document db _ _
                 ?_ ⟨r, hrmem, rfl⟩ ⟨t, htmem, rfl⟩ h
               intro x
               split <;> rfl)
            | (apply wellFormedRefs_log_action
               exact wellFormedRefs_cons_document db _ ⟨r, hrmem, rfl⟩
                 ⟨t, htmem, rfl⟩ h)
            | split
            | dsimp only

theorem refs_revise_document (db : DB) (actor : Nat) (now : Int)
    (today : Date) (ip ua : Option String) (did ndid lid : Nat)
    (h : wellFormedRefs db) :
    wellFormedRefs (revise_document db actor now today ip ua did ndid lid) := by
  unfold revise_document
  cases hfd : db.documents.find? (fun d => d.id == did) with
  | none => exact h
  | some d0 =>
      have hd0 : d0 ∈ db.documents := List.mem_of_find?_eq_some hfd
      obtain ⟨hr, ht⟩ := h d0 hd0
      dsimp only
      repeat' first
        | exact h
        | (apply wellFormedRefs_log_action
           exact wellFormedRefs_cons_document db _ hr ht h)
        | split
        | dsimp only

theorem refs_finalize_document_issue (db : DB) (actor : Nat) (now : Int)
    (today : Date) (ip ua : Option String) (did : Nat) (pdfRelPath : String)
    (lid : Nat) (h : wellFormedRefs db) :
    wellFormedRefs (finalize_document_issue db actor now today ip ua did
      pdfRelPath lid) := by
  unfold finalize_document_issue
  cases hfd : db.documents.find? (fun d => d.id == did) with
  | none => exact h
  | some d0 =>
      repeat' first
        | exact h
        | (apply wellFormedRefs_log_action
           refine wellFormedRefs_update_documents db _ ?_ h
           intro d
           constructor <;> (dsimp only; split <;> (try split) <;> rfl))
        | split
        | dsimp only

theorem refs_edit_document (db : DB) (actor : Nat) (now : Int) (today : Date)
    (ip ua : Option String) (did rid tid : Nat) (details : Option String)
    (issueDate : Option Date) (lid : Nat) (h : wellFormedRefs db) :
    wellFormedRefs (edit_document db actor now today ip ua did rid tid
      details issueDate lid) := by
  unfold edit_document
  cases hfd : db.documents.find? (fun d => d.id == did) with
  | none => exact h
  | some d0 =>
      cases hfr : db.residents.find? (fun r => r.id == rid) with
      | none =>
          repeat' first | exact h | split | dsimp only
      | some r =>
          cases hft : db.document_types.find? (fun t => t.id == tid) with
          | none =>
              repeat' first | exact h | split | dsimp only
          | some t2 =>
              have hrmem : r ∈ db.residents := List.mem_of_find?_eq_some hfr
              have hrid : r.id = rid := by simpa using List.find?_some hfr
              have htmem : t2 ∈ db.document_types :=
                List.mem_of_find?_eq_some hft
              have htid : t2.id = tid := by simpa using List.find?_some hft
              dsimp only
              repeat' first
                | exact h
                | split
                | dsimp only
              all_goals
                apply wellFormedRefs_log_action
              all_goals
                intro d hd
              all_goals
                obtain ⟨d1, hd1, rfl⟩ := List.mem_map.mp hd
              all_goals
                by_cases hid : (d1.id == did) = true
              all_goals first
                | (constructor
                   · refine ⟨r, hrmem, ?_⟩
                     rw [hrid]
                     simp only [hid, if_true]
                     split <;> rfl
                   · refine ⟨t2, htmem, ?_⟩
                     rw [htid]
                     simp only [hid, if_true]
                     split <;> rfl)
                | (simp only [hid, Bool.false_eq_true, if_false]
                   exact h d1 hd1)

theorem refs_delete_document_type (db : DB) (actor : Nat) (now : Int)
    (ip ua : Option String) (tid lid : Nat) (h : wellFormedRefs db) :
    wellFormedRefs (delete_document_type db actor now ip ua tid lid) := by
  unfold delete_document_type
  cases hft : db.document_types.find? (fun t => t.id == tid) with
  | none => exact h
  | some dt =>
      have hdtid : dt.id = tid := by simpa using List.find?_some hft
      by_cases hin :
        db.documents.any (fun d => d.document_type_id == dt.id) = true
      · simp only [hin, if_true]
        exact h
      · have hane : db.documents.any (fun d => d.document_type_id == dt.id)
            = false := by simpa using hin
        simp only [hin, Bool.false_eq_true, if_false]
        apply wellFormedRefs_log_action
        intro d hd
        obtain ⟨⟨r, hr, hre⟩, ⟨t, ht, hte⟩⟩ := h d hd
        refine ⟨⟨r, hr, hre⟩, ⟨t, List.mem_filter.mpr ⟨ht, ?_⟩, hte⟩⟩
        have hne : d.document_type_id ≠ dt.id := by
          have hx := (List.any_eq_false.mp hane) d hd
          simpa using hx
        have hti : t.id ≠ tid := by
          intro hteq
          exact hne (by rw [← hte, hteq, hdtid])
        simpa using hti

/-- C6: every `Document` row's `resident_id` and `document_type_id` are
non-null by construction (`Nat` fields mirroring the NOT NULL columns);
the document-creating operations set them from existing rows;
`delete_document_type` refuses to delete a referenced type; and every
embedded operation preserves referential integrity (`wellFormedRefs`), so
the references never dangle. -/
theorem C6_referential_integrity (db : DB) (h : wellFormedRefs db) :
    (∀ actor now today ip ua rid tid details issueDate photoPath ndid lid,
      wellFormedRefs (issue_document db actor now today ip ua rid tid
        details issueDate photoPath ndid lid))
    ∧ (∀ actor now today ip ua did rid tid details issueDate lid,
        wellFormedRefs (edit_document db actor now today ip ua did rid tid
          details issueDate lid))
    ∧ (∀ actor now today ip ua did ndid lid,
        wellFormedRefs (revise_document db actor now today ip ua did ndid
          lid))
    ∧ (∀ actor now today ip ua did pdfRelPath lid,
        wellFormedRefs (finalize_document_issue db actor now today ip ua did
          pdfRelPath lid))
    ∧ (∀ actor now ip ua tid lid,
        wellFormedRefs (delete_document_type db actor now ip ua tid lid))
    ∧ (∀ actor now ip ua rid lid,
        wellFormedRefs (delete_resident db actor now ip ua rid lid))
    ∧ (∀ actor now ip ua rid lid,
        wellFormedRefs (restore_resident db actor now ip ua rid lid))
    ∧ (∀ actor now ip ua did lid,
        wellFormedRefs (delete_document db actor now ip ua did lid))
    ∧ (∀ actor now ip ua did lid,
        wellFormedRefs (restore_document db actor now ip ua did lid))
    ∧ (∀ actor now ip ua uid lid,
        wellFormedRefs (delete_user db actor now ip ua uid lid))
    ∧ (∀ months grace now today cutoffDate lid1 lid2,
        wellFormedRefs (process_expired_documents db months grace now today
          cutoffDate lid1 lid2)) :=
  ⟨fun actor now today ip ua rid tid details issueDate photoPath ndid lid =>
     refs_issue_document db actor now today ip ua rid tid details issueDate
       photoPath ndid lid h,
   fun actor now today ip ua did rid tid details issueDate lid =>
     refs_edit_document db actor now today ip ua did rid tid details
       issueDate lid h,
   fun actor now today ip ua did ndid lid =>
     refs_revise_document db actor now today ip ua did ndid lid h,
   fun actor now today ip ua did pdfRelPath lid =>
     refs_finalize_document_issue db actor now today ip ua did pdfRelPath
       lid h,
   fun actor now ip ua tid lid =>
     refs_delete_document_type db actor now ip ua tid lid h,
   fun actor now ip ua rid lid =>
     refs_delete_resident db actor now ip ua rid lid h,
   fun actor now ip ua rid lid =>
     refs_restore_resident db actor now ip ua rid lid h,
   fun actor now ip ua did lid =>
     refs_delete_document db actor now ip ua did lid h,
   fun actor now ip ua did lid =>
     refs_restore_document db actor now ip ua did lid h,
   fun actor now ip ua uid lid =>
     refs_delete_user db actor now ip ua uid lid h,
   fun months grace now today cutoffDate lid1 lid2 =>
     refs_process_expired_documents db months grace now today cutoffDate
       lid1 lid2 h⟩

/-- Witness for C6: the concrete database holding one resident, one type
and one issued document is well-formed, and stays well-formed through a
revision draft and a (refused) document-type deletion. -/
theorem C6_referential_integrity_witness :
    wellFormedRefs dbDocsEx
      ∧ wellFormedRefs
          (revise_document dbDocsEx 1 5 ⟨2026, 2, 1⟩ none none 1 2 9)
      ∧ wellFormedRefs (delete_document_type dbDocsEx 1 5 none none 1 10) :=
  ⟨by decide,
   (C6_referential_integrity dbDocsEx (by decide)).2.2.1 1 5 ⟨2026, 2, 1⟩
     none none 1 2 9,
   (C6_referential_integrity dbDocsEx (by decide)).2.2.2.2.1 1 5 none none
     1 10⟩

/-! ## Claim C1 -/

theorem finalize_login_authenticated (db : DB) (sess : SessionS) (lid : Nat)
    (now : Int) (ip ua : Option String) (u : UserR) (action : String) :
    (finalize_login db sess lid now ip ua u action).2.authenticated
      = some u.id := by
  unfold finalize_login
  split <;> rfl

theorem finalize_login_mfa_codes (db : DB) (sess : SessionS) (lid : Nat)
    (now : Int) (ip ua : Option String) (u : UserR) (action : String) :
    (finalize_login db sess lid now ip ua u action).1.login_mfa_codes
      = db.login_mfa_codes := rfl

/-- What `mfa_verify` does for a pending admin MFA session: the session
becomes authenticated exactly when an unused `LoginMfaCode` row of that
user matches the submitted code with `expires_at` strictly in the future;
on success that row is marked used. -/
theorem mfa_verify_characterization (db : DB) (sess : SessionS) (now : Int)
    (ip ua : Option String) (sub : String) (lid : Nat) (u : UserR)
    (hauth : sess.authenticated = none)
    (hmfa : sess.mfa_user_id = some u.id)
    (hfind : db.users.find? (fun x => x.id == u.id) = some u) :
    ((mfa_verify db sess now ip ua sub lid).session.authenticated = some u.id
      ↔ ∃ q ∈ db.login_mfa_codes, q.user_id = u.id
          ∧ q.otp_code = strUpper (strTrim sub) ∧ q.used = false
          ∧ now < q.expires_at)
    ∧ ((mfa_verify db sess now ip ua sub lid).outcome = MfaOutcome.loggedIn →
        ∃ q ∈ db.login_mfa_codes, q.user_id = u.id
          ∧ q.otp_code = strUpper (strTrim sub) ∧ q.used = false
          ∧ now < q.expires_at
          ∧ (mfa_verify db sess now ip ua sub lid).db.login_mfa_codes
              = db.login_mfa_codes.map (fun w =>
                  if w.id == q.id then { w with used := true } else w)) := by
  unfold mfa_verify
  simp only [hauth, hmfa, hfind, Option.isSome_none, Bool.false_eq_true,
    if_false]
  cases hlat : latestByExpiry (db.login_mfa_codes.filter (fun r =>
      r.user_id == u.id && r.otp_code == strUpper (strTrim sub) && !r.used))
    with
  | none =>
      dsimp only
      constructor
      · constructor
        · intro hco
          rw [hauth] at hco
          cases hco
        · rintro ⟨q, hqmem, hq1, hq2, hq3, hq4⟩
          have hqfil : q ∈ db.login_mfa_codes.filter (fun r =>
              r.user_id == u.id && r.otp_code == strUpper (strTrim sub)
                && !r.used) :=
            List.mem_filter.mpr ⟨hqmem, by simp [hq1, hq2, hq3]⟩
          obtain ⟨w, hw, hle⟩ := latestByExpiry_dominates hqfil
          rw [hlat] at hw
          cases hw
      · intro hx
        exact absurd hx (by decide)
  | some pr =>
      dsimp only
      by_cases hexp : now < pr.expires_at
      · have hprfil := latestByExpiry_mem hlat
        have hprmem := (List.mem_filter.mp hprfil).1
        have hpred := (List.mem_filter.mp hprfil).2
        have hpr1 : pr.user_id = u.id := by
          have hb := hpred
          simp only [Bool.and_eq_true, beq_iff_eq, Bool.not_eq_true'] at hb
          exact hb.1.1
        have hpr2 : pr.otp_code = strUpper (strTrim sub) := by
          have hb := hpred
          simp only [Bool.and_eq_true, beq_iff_eq, Bool.not_eq_true'] at hb
          exact hb.1.2
        have hpr3 : pr.used = false := by
          have hb := hpred
          simp only [Bool.and_eq_true, beq_iff_eq, Bool.not_eq_true'] at hb
          exact hb.2
        simp only [hexp, if_true]
        constructor
        · constructor
          · intro _
            exact ⟨pr, hprmem, hpr1, hpr2, hpr3, hexp⟩
          · intro _
            exact finalize_login_authenticated _ _ _ _ _ _ _ _
        · intro _
          refine ⟨pr, hprmem, hpr1, hpr2, hpr3, hexp, ?_⟩
          rw [finalize_login_mfa_codes]
      · simp only [hexp, if_false]
        constructor
        · constructor
          · intro hco
            rw [hauth] at hco
            cases hco
          · rintro ⟨q, hqmem, hq1, hq2, hq3, hq4⟩
            have hqfil : q ∈ db.login_mfa_codes.filter (fun r =>
                r.user_id == u.id && r.otp_code == strUpper (strTrim sub)
                  && !r.used) :=
              List.mem_filter.mpr ⟨hqmem, by simp [hq1, hq2, hq3]⟩
            obtain ⟨w, hw, hle⟩ := latestByExpiry_dominates hqfil
            rw [hlat] at hw
            cases hw
            exact absurd (lt_of_lt_of_le hq4 hle) hexp
        · intro hx
          exact absurd hx (by decide)

/-- C1: with `ADMIN_MFA_REQUIRED` enabled, a correct username/password
submission by an admin never by itself authenticates the session: the
login stores a fresh `LoginMfaCode` row (expiring after the configured
TTL) and leaves the session unauthenticated; afterwards `mfa_verify`
authenticates the session exactly when it finds an unused row for that
user matching the submitted code with `expires_at` strictly in the
future, and marks that row used. -/
theorem C1_admin_mfa_flow (cfg : ConfigS) (db : DB) (sess : SessionS)
    (now : Int) (ip ua : Option String) (usernameInput pwd : String)
    (remember : Bool) (next_page : Option String) (genCode : String)
    (attemptId mfaId logId : Nat) (u : UserR)
    (hauth : sess.authenticated = none)
    (hfind : db.users.find? (fun x => x.username == strTrim usernameInput)
        = some u)
    (hid : db.users.find? (fun x => x.id == u.id) = some u)
    (hrole : u.role = "admin")
    (hmfa : cfg.admin_mfa_required = true)
    (hpwd : u.check_password pwd = true)
    (hemail : u.email ≠ "")
    (hrl : is_rate_limited cfg db.login_attempts now (strTrim usernameInput)
        ip = false) :
    (login cfg db sess now ip ua usernameInput pwd remember next_page
        genCode attemptId mfaId logId).outcome = LoginOutcome.mfaStarted
    ∧ (login cfg db sess now ip ua usernameInput pwd remember next_page
        genCode attemptId mfaId logId).session.authenticated = none
    ∧ (login cfg db sess now ip ua usernameInput pwd remember next_page
        genCode attemptId mfaId logId).db.login_mfa_codes
      = ⟨mfaId, u.id, strUpper genCode, now + cfg.mfa_code_ttl_seconds,
         false, now⟩ :: db.login_mfa_codes
    ∧ (∀ (now2 : Int) (sub : String) (ip2 ua2 : Option String) (lid2 : Nat),
        ((mfa_verify
            (login cfg db sess now ip ua usernameInput pwd remember
              next_page genCode attemptId mfaId logId).db
            (login cfg db sess now ip ua usernameInput pwd remember
              next_page genCode attemptId mfaId logId).session
            now2 ip2 ua2 sub lid2).session.authenticated = some u.id
          ↔ ∃ q ∈ (login cfg db sess now ip ua usernameInput pwd remember
              next_page genCode attemptId mfaId logId).db.login_mfa_codes,
              q.user_id = u.id ∧ q.otp_code = strUpper (strTrim sub)
                ∧ q.used = false ∧ now2 < q.expires_at)
        ∧ ((mfa_verify
              (login cfg db sess now ip ua usernameInput pwd remember
                next_page genCode attemptId mfaId logId).db
              (login cfg db sess now ip ua usernameInput pwd remember
                next_page genCode attemptId mfaId logId).session
              now2 ip2 ua2 sub lid2).outcome = MfaOutcome.loggedIn →
            ∃ q ∈ (login cfg db sess now ip ua usernameInput pwd remember
                next_page genCode attemptId mfaId logId).db.login_mfa_codes,
              q.user_id = u.id ∧ q.otp_code = strUpper (strTrim sub)
                ∧ q.used = false ∧ now2 < q.expires_at
                ∧ (mfa_verify
                    (login cfg db sess now ip ua usernameInput pwd remember
                      next_page genCode attemptId mfaId logId).db
                    (login cfg db sess now ip ua usernameInput pwd remember
                      next_page genCode attemptId mfaId logId).session
                    now2 ip2 ua2 sub lid2).db.login_mfa_codes
                  = (login cfg db sess now ip ua usernameInput pwd remember
                      next_page genCode attemptId mfaId logId).db.login_mfa_codes.map
                      (fun w => if w.id == q.id then { w with used := true }
                                else w))) := by
  have hL : login cfg db sess now ip ua usernameInput pwd remember next_page
      genCode attemptId mfaId logId
      = ⟨LoginOutcome.mfaStarted,
         { record_login_attempt db attemptId now (strTrim usernameInput) ip
             true with
           login_mfa_codes :=
             ⟨mfaId, u.id, strUpper genCode,
              now + cfg.mfa_code_ttl_seconds, false, now⟩
               :: db.login_mfa_codes },
         { sess with
           mfa_user_id := some u.id
           mfa_remember := remember
           mfa_next :=
             match next_page with
             | some n => if n = "" then sess.mfa_next else some n
             | none => sess.mfa_next }⟩ := by
    unfold login start_mfa
    simp only [hauth, hrl, hfind, hrole, hmfa, hpwd, Option.isSome_none,
      Bool.false_eq_true, Bool.not_true, if_false, beq_self_eq_true,
      Bool.and_self, if_true, hemail, ite_false, ite_true]
    rfl
  refine ⟨?_, ?_, ?_, ?_⟩
  · rw [hL]
  · rw [hL]
    exact hauth
  · rw [hL]
  · intro now2 sub ip2 ua2 lid2
    rw [hL]
    exact mfa_verify_characterization _ _ now2 ip2 ua2 sub lid2 u hauth rfl
      hid

/-- Witness for C1: with the default configuration, the concrete admin
login with the correct password only starts MFA: the session stays
unauthenticated and one unused `LoginMfaCode` row is stored. -/
theorem C1_admin_mfa_witness :
    ({} : ConfigS).admin_mfa_required = true
      ∧ userAdminEx.role = "admin"
      ∧ userAdminEx.check_password "pw1" = true
      ∧ sessEmpty.authenticated = none
      ∧ (login {} dbAuthEx sessEmpty 0 none none "root" "pw1" false none
          "abc123" 1 2 3).outcome = LoginOutcome.mfaStarted
      ∧ (login {} dbAuthEx sessEmpty 0 none none "root" "pw1" false none
          "abc123" 1 2 3).session.authenticated = none
      ∧ (login {} dbAuthEx sessEmpty 0 none none "root" "pw1" false none
          "abc123" 1 2 3).db.login_mfa_codes
        = ⟨2, userAdminEx.id, strUpper "abc123",
           0 + ({} : ConfigS).mfa_code_ttl_seconds, false, 0⟩
            :: dbAuthEx.login_mfa_codes :=
  ⟨rfl, rfl, by decide, rfl,
   (C1_admin_mfa_flow {} dbAuthEx sessEmpty 0 none none "root" "pw1" false
     none "abc123" 1 2 3 userAdminEx rfl (by decide) (by decide) rfl rfl
     (by decide) (by decide) (by decide)).1,
   (C1_admin_mfa_flow {} dbAuthEx sessEmpty 0 none none "root" "pw1" false
     none "abc123" 1 2 3 userAdminEx rfl (by decide) (by decide) rfl rfl
     (by decide) (by decide) (by decide)).2.1,
   (C1_admin_mfa_flow {} dbAuthEx sessEmpty 0 none none "root" "pw1" false
     none "abc123" 1 2 3 userAdminEx rfl (by decide) (by decide) rfl rfl
     (by decide) (by decide) (by decide)).2.2.1⟩

/-! ## Claim C10 -/

/-- C10: login rate limiting.  The limiter is disabled when either
configuration value is non-positive; successful attempts never count;
when the failed-attempt count in the window for the submitted username or
for the client ip reaches `LOGIN_RATE_LIMIT_MAX` the limiter fires; and a
rate-limited login is refused as-is — the database and session are
untouched and the password is never consulted. -/
theorem C10_login_rate_limiting (cfg : ConfigS) :
    (∀ (attempts : List LoginAttemptR) (now : Int) (username : String)
        (ip : Option String),
      cfg.login_rate_limit_max ≤ 0 ∨ cfg.login_rate_limit_window_seconds ≤ 0 →
      is_rate_limited cfg attempts now username ip = false)
    ∧ (∀ (a : LoginAttemptR) (attempts : List LoginAttemptR) (now : Int)
          (username : String) (ip : Option String),
        a.success = true →
        is_rate_limited cfg (a :: attempts) now username ip
          = is_rate_limited cfg attempts now username ip)
    ∧ (∀ (attempts : List LoginAttemptR) (now : Int) (username i : String),
        0 < cfg.login_rate_limit_max →
        0 < cfg.login_rate_limit_window_seconds →
        username ≠ "" → i ≠ "" →
        (cfg.login_rate_limit_max ≤
            (((attempts.filter (fun a => !a.success
                && now - cfg.login_rate_limit_window_seconds ≤ a.created_at)).filter
              (fun a => a.ip_address == some i)).length : Int)
          ∨ cfg.login_rate_limit_max ≤
            (((attempts.filter (fun a => !a.success
                && now - cfg.login_rate_limit_window_seconds ≤ a.created_at)).filter
              (fun a => a.username == some username)).length : Int)) →
        is_rate_limited cfg attempts now username (some i) = true)
    ∧ (∀ (db : DB) (sess : SessionS) (now : Int) (ip ua : Option String)
          (usernameInput pwd : String) (remember : Bool)
          (next_page : Option String) (genCode : String)
          (attemptId mfaId logId : Nat),
        sess.authenticated = none →
        is_rate_limited cfg db.login_attempts now (strTrim usernameInput) ip
          = true →
        login cfg db sess now ip ua usernameInput pwd remember next_page
            genCode attemptId mfaId logId
          = ⟨LoginOutcome.rateLimited, db, sess⟩) := by
  refine ⟨?_, ?_, ?_, ?_⟩
  · intro attempts now username ip h
    rcases h with h | h <;> simp [is_rate_limited, h]
  · intro a attempts now username ip ha
    simp [is_rate_limited, List.filter_cons, ha]
  · intro attempts now username i hmax hwin hun hi hcount
    unfold is_rate_limited
    rw [if_neg]
    · dsimp only
      rw [if_neg hi, if_neg hun]
      simp only [decide_eq_true_eq]
      rcases hcount with hc | hc
      · exact le_trans hc (le_max_left _ _)
      · exact le_trans hc (le_max_right _ _)
    · simp only [Bool.or_eq_true, decide_eq_true_eq]
      push_neg
      exact ⟨hmax, hwin⟩
  · intro db sess now ip ua usernameInput pwd remember next_page genCode
      attemptId mfaId logId hauth hrl
    simp [login, hauth, hrl]

/-- Five failed attempts from the same ip and username within the window. -/
def dbRateEx : DB :=
  { dbAuthEx with login_attempts :=
      [⟨1, some "root", some "1.2.3.4", false, 100⟩,
       ⟨2, some "root", some "1.2.3.4", false, 110⟩,
       ⟨3, some "root", some "1.2.3.4", false, 120⟩,
       ⟨4, some "root", some "1.2.3.4", false, 130⟩,
       ⟨5, some "root", some "1.2.3.4", false, 140⟩] }

/-- Witness for C10: with the default configuration and five recent
failed attempts, the limiter fires and the login is refused with
database and session untouched (even though the password is correct). -/
theorem C10_rate_limit_witness :
    is_rate_limited {} dbRateEx.login_attempts 200 (strTrim "root")
        (some "1.2.3.4") = true
      ∧ userAdminEx.check_password "pw1" = true
      ∧ login {} dbRateEx sessEmpty 200 (some "1.2.3.4") none "root" "pw1"
          false none "ABC123" 9 10 11
          = ⟨LoginOutcome.rateLimited, dbRateEx, sessEmpty⟩ :=
  ⟨by decide, by decide,
   (C10_login_rate_limiting {}).2.2.2 dbRateEx sessEmpty 200
     (some "1.2.3.4") none "root" "pw1" false none "ABC123" 9 10 11
     (by decide) (by decide)⟩

end Barangay
